import Mathlib

/-!
Verification development for the open-webui tool modules
(`tools/alphavantage.py`, `tools/github.py`, `tools/paperless.py`,
`tools/web_content_extractor.py`).

The Python code is shallowly embedded: every tool operation becomes a pure
Lean function.  Effects are made explicit:

* upstream HTTP traffic is an environment value (`Except PyError …` per
  request, or a structure of such oracles when an operation performs several
  requests);
* a raised Python exception is an `Except.error` — operations whose source
  can let an exception escape return `Except PyError String`, operations
  whose source always returns a string return `String` directly;
* the optional `__event_emitter__` callback is a boolean `emit` flag; each
  `await __event_emitter__({...})` appends the emitted dictionary (modelled
  as `Json`) to an event trace.  The callback's return value is discarded in
  the source, so a well-behaved (non-raising) callback is fully described by
  the trace.  Python `str` is Lean `String` (a list of unicode code points,
  matching `len`/slicing on `str`).
-/

set_option maxHeartbeats 1000000
set_option linter.unusedVariables false

/-- A raised Python exception, as observed through `str(e)`. -/
inductive PyError where
  | typeError (m : String)
  | validationError (m : String)
  | apiError (m : String)
deriving DecidableEq

/-- `str(e)` for an embedded exception. -/
def PyError.msg : PyError → String
  | .typeError m => m
  | .validationError m => m
  | .apiError m => m

/-- Dynamic Python values, used for the caller-supplied `__user__["valves"]`
object whose shape is unknown. -/
inductive PyVal where
  | vInt (n : Int)
  | vStr (s : String)
  | vBool (b : Bool)
  | vDict (fields : List (String × PyVal))

/-- The value found under `__user__["valves"]`: the key can be absent,
hold an actual `UserValves` instance (the `isinstance` check succeeds), or
hold an arbitrary dynamic value. -/
inductive Supplied (α : Type) where
  | missing
  | inst (v : α)
  | raw (v : PyVal)

/-- Python `str.strip()` (default whitespace set). -/
def pyStrip (s : String) : String :=
  ⟨(((s.data.dropWhile Char.isWhitespace).reverse).dropWhile Char.isWhitespace).reverse⟩

/-- Python `str.split(sep)` for a one-character separator `sep`
(empty fields are kept; `"".split(sep) == [""]`). -/
def pySplitChar (sep : Char) (s : String) : List String :=
  (s.data.splitOn sep).map (fun l => (⟨l⟩ : String))

/-- Python `sep in s` for a one-character `sep`. -/
def pyContainsChar (sep : Char) (s : String) : Bool :=
  s.data.contains sep

/-- Python `s.split(sep, 1)` for a one-character separator, at a call site
that has already checked `sep in s`: the part before the first separator and
the (re-joined) remainder after it.  When the separator does not occur the
remainder is `""`. -/
def pySplitOnce (sep : Char) (s : String) : String × String :=
  match s.data.splitOn sep with
  | [] => (s, "")
  | x :: rest => (⟨x⟩, ⟨List.intercalate [sep] rest⟩)

/-- Python `s.split("|||")`: left-to-right scan for non-overlapping
occurrences of the three-character separator. -/
def splitTripleBarAux : List Char → List Char → List String
  | acc, '|' :: '|' :: '|' :: rest => (⟨acc.reverse⟩ : String) :: splitTripleBarAux [] rest
  | acc, c :: rest => splitTripleBarAux (c :: acc) rest
  | acc, [] => [(⟨acc.reverse⟩ : String)]

/-- Python `s.split("|||")`. -/
def pySplitTripleBar (s : String) : List String :=
  splitTripleBarAux [] s.data

/-- The numeric value of a non-empty all-digit character list, `none`
otherwise. -/
def digitsVal (l : List Char) : Option Nat :=
  if l ≠ [] ∧ l.all Char.isDigit then
    some (l.foldl (fun a c => a * 10 + (c.toNat - '0'.toNat)) 0)
  else none

/-- Python `int(s)` on a string: strips whitespace, accepts an optional
sign followed by decimal digits, raises `ValueError` otherwise.  (Underscore
digit grouping is not modelled.) -/
def pyInt (s : String) : Except PyError Int :=
  let t := (pyStrip s).data
  match t with
  | '-' :: rest =>
    match digitsVal rest with
    | some n => .ok (-(n : Int))
    | none => .error (.validationError ("invalid literal for int() with base 10: " ++ s))
  | '+' :: rest =>
    match digitsVal rest with
    | some n => .ok (n : Int)
    | none => .error (.validationError ("invalid literal for int() with base 10: " ++ s))
  | _ =>
    match digitsVal t with
    | some n => .ok (n : Int)
    | none => .error (.validationError ("invalid literal for int() with base 10: " ++ s))

/-- Python `str.isdigit()` restricted to ASCII decimal digits. -/
def pyIsDigit (s : String) : Bool :=
  s.data ≠ [] && s.data.all Char.isDigit

/-- JSON values, as decoded by `response.json()` / encoded by `json.dumps`.
Numbers are modelled as integers (the claims only depend on the first
character of a serialised number). -/
inductive Json where
  | null
  | bool (b : Bool)
  | num (n : Int)
  | str (s : String)
  | arr (elems : List Json)
  | obj (fields : List (String × Json))

/-- The decimal digit character for `m < 10` (defaults to `'0'`). -/
def natDigitChar : Nat → Char
  | 0 => '0' | 1 => '1' | 2 => '2' | 3 => '3' | 4 => '4'
  | 5 => '5' | 6 => '6' | 7 => '7' | 8 => '8' | 9 => '9'
  | _ => '0'

/-- Decimal digits of `n` (most significant first); the first argument is
structural fuel, `fuel ≥ n` suffices. -/
def natReprCore : Nat → Nat → List Char
  | 0, _ => []
  | fuel + 1, n => if n = 0 then [] else natReprCore fuel (n / 10) ++ [natDigitChar (n % 10)]

/-- Python `repr` of an `int` (decimal, with `-` for negatives), used by
`json.dumps` to serialise numbers. -/
def intRepr : Int → String
  | .ofNat m => if m = 0 then "0" else ⟨natReprCore m m⟩
  | .negSucc m => "-" ++ (⟨natReprCore (m + 1) (m + 1)⟩ : String)

/-- The hexadecimal digit character for `m < 16` (defaults to `'0'`). -/
def hexDigitChar : Nat → Char
  | 0 => '0' | 1 => '1' | 2 => '2' | 3 => '3' | 4 => '4'
  | 5 => '5' | 6 => '6' | 7 => '7' | 8 => '8' | 9 => '9'
  | 10 => 'a' | 11 => 'b' | 12 => 'c' | 13 => 'd' | 14 => 'e' | 15 => 'f'
  | _ => '0'

/-- `json.dumps` escaping of one character inside a string literal, with
`ensure_ascii=False` (non-ASCII characters pass through verbatim). -/
def jsonEscapeChar (c : Char) : String :=
  if c = '"' then "\\\""
  else if c = '\\' then "\\\\"
  else if c = '\n' then "\\n"
  else if c = '\t' then "\\t"
  else if c = '\r' then "\\r"
  else if c.toNat = 8 then "\\b"
  else if c.toNat = 12 then "\\f"
  else if c.toNat < 32 then
    "\\u00" ++ String.singleton (hexDigitChar (c.toNat / 16)) ++ String.singleton (hexDigitChar (c.toNat % 16))
  else String.singleton c

/-- A JSON string literal as produced by `json.dumps(..., ensure_ascii=False)`. -/
def jsonQuote (s : String) : String :=
  "\"" ++ String.join (s.data.map jsonEscapeChar) ++ "\""

mutual

/-- `json.dumps(data, ensure_ascii=False)` with the default separators
`", "` and `": "`. -/
def dumps : Json → String
  | .null => "null"
  | .bool true => "true"
  | .bool false => "false"
  | .num n => intRepr n
  | .str s => jsonQuote s
  | .arr xs => "[" ++ String.intercalate ", " (dumpsList xs) ++ "]"
  | .obj fs => "\x7b" ++ String.intercalate ", " (dumpsObj fs) ++ "\x7d"

/-- Serialisations of the elements of a JSON array. -/
def dumpsList : List Json → List String
  | [] => []
  | x :: xs => dumps x :: dumpsList xs

/-- Serialisations of the key/value pairs of a JSON object. -/
def dumpsObj : List (String × Json) → List String
  | [] => []
  | (k, v) :: fs => (jsonQuote k ++ ": " ++ dumps v) :: dumpsObj fs

end

/-- "the returned string begins with `"Error"`" — the error shape of
claim C10. -/
def errorShaped (r : String) : Prop :=
  ∃ t, r = "Error" ++ t

/-- `if __event_emitter__ [and …]: await __event_emitter__(e)` — append the
emitted dictionary to the trace when the guard holds. -/
def emitIf (b : Bool) (e : Json) (evs : List Json) : List Json :=
  if b then evs ++ [e] else evs

/-! ## `tools/alphavantage.py` -/

/-- `Tools.Valves` of the Alpha Vantage tool. -/
structure AVValves where
  ALPHAVANTAGE_URL : String := "https://www.alphavantage.co/query"
  ALPHAVANTAGE_API_KEY : String := ""

/-- `EventEmitter.emit`: the status dictionary
`{"type": "status", "data": {"status": …, "description": …, "done": …}}`. -/
def avStatusEvent (description status : String) (done : Bool) : Json :=
  .obj [("type", .str "status"),
        ("data", .obj [("status", .str status), ("description", .str description), ("done", .bool done)])]

/-- `Tools.get_daily_time_series`.  `env` is the joint outcome of
`requests.get`, `raise_for_status()` and `response.json()`. -/
def get_daily_time_series (valves : AVValves) (symbol : String) (emit : Bool)
    (env : Except PyError Json) : String × List Json :=
  let evs := emitIf emit (avStatusEvent ("Fetching daily time series for " ++ symbol) "in_progress" false) []
  match env with
  | .ok data =>
    let encoded_data := dumps data
    (encoded_data,
     emitIf emit (avStatusEvent ("Received daily time series data for " ++ symbol) "success" true) evs)
  | .error e =>
    let error_msg := "Error fetching daily time series data: " ++ e.msg
    (error_msg, emitIf emit (avStatusEvent error_msg "error" true) evs)

/-- `Tools.get_intraday_series`. -/
def get_intraday_series (valves : AVValves) (symbol interval : String) (emit : Bool)
    (env : Except PyError Json) : String × List Json :=
  let evs := emitIf emit
    (avStatusEvent ("Fetching intraday time series for " ++ symbol ++ " with interval " ++ interval)
      "in_progress" false) []
  match env with
  | .ok data =>
    let encoded_data := dumps data
    (encoded_data,
     emitIf emit (avStatusEvent ("Received intraday time series data for " ++ symbol) "success" true) evs)
  | .error e =>
    let error_msg := "Error fetching intraday data: " ++ e.msg
    (error_msg, emitIf emit (avStatusEvent error_msg "error" true) evs)

/-- `Tools.get_global_quote`. -/
def get_global_quote (valves : AVValves) (symbol : String) (emit : Bool)
    (env : Except PyError Json) : String × List Json :=
  let evs := emitIf emit (avStatusEvent ("Fetching global quote for " ++ symbol) "in_progress" false) []
  match env with
  | .ok data =>
    let encoded_data := dumps data
    (encoded_data, emitIf emit (avStatusEvent ("Received global quote for " ++ symbol) "success" true) evs)
  | .error e =>
    let error_msg := "Error fetching global quote: " ++ e.msg
    (error_msg, emitIf emit (avStatusEvent error_msg "error" true) evs)

/-- `Tools.search_symbol`. -/
def search_symbol (valves : AVValves) (keywords : String) (emit : Bool)
    (env : Except PyError Json) : String × List Json :=
  let evs := emitIf emit
    (avStatusEvent ("Searching symbols for keyword \x27" ++ keywords ++ "\x27") "in_progress" false) []
  match env with
  | .ok data =>
    let encoded_data := dumps data
    (encoded_data,
     emitIf emit (avStatusEvent ("Search completed for keyword \x27" ++ keywords ++ "\x27") "success" true) evs)
  | .error e =>
    let error_msg := "Error searching symbols: " ++ e.msg
    (error_msg, emitIf emit (avStatusEvent error_msg "error" true) evs)

/-! ## `tools/github.py` -/

/-- `Tools.Valves` of the GitHub tool. -/
structure GHValves where
  github_token : String := ""
  default_branch : String := "main"
  max_file_size : Int := 100000
  enable_status_updates : Bool := true

/-- `Tools.UserValves` of the GitHub tool. -/
structure GHUserValves where
  show_line_numbers : Bool := true
  syntax_highlighting : Bool := true
deriving DecidableEq

/-- `self.UserValves()` — the default user valves. -/
def ghDefaultUserValves : GHUserValves := {}

/-- `__user__.get("valves", self.UserValves())` followed by
`if not isinstance(user_valves, self.UserValves): user_valves = self.UserValves()`:
anything that is not an actual `UserValves` instance falls back to the
default. -/
def ghGetUserValves : Supplied GHUserValves → GHUserValves
  | .missing => ghDefaultUserValves
  | .inst v => v
  | .raw _ => ghDefaultUserValves

/-- Python `str.lower()` (ASCII). -/
def pyLower (s : String) : String :=
  ⟨s.data.map Char.toLower⟩

/-- The `langs` dictionary of `Tools._detect_language`. -/
def langsTable : List (String × String) :=
  [("py", "python"), ("js", "javascript"), ("ts", "typescript"), ("java", "java"),
   ("c", "c"), ("cpp", "cpp"), ("cs", "csharp"), ("go", "go"), ("rs", "rust"),
   ("rb", "ruby"), ("php", "php"), ("sh", "bash"), ("md", "markdown"),
   ("html", "html"), ("css", "css"), ("json", "json"), ("yaml", "yaml")]

/-- `Tools._detect_language`. -/
def _detect_language (ext : String) : String :=
  (langsTable.lookup (pyLower ext)).getD ""

/-- `f"{v:.1f}"` for the exact non-negative rational `num / den` (`den > 0`):
round-half-up to one decimal digit.  `⌊num/den · 10 + 1/2⌋ = (20·num + den) / (2·den)`
in natural division.  (CPython formats the nearest binary64 with
round-half-even; on the values reached here the two agree except on exact
decimal midpoints, which no claim depends on.) -/
def formatFrac1 (num den : Nat) : String :=
  let tenths := (2 * num * 10 + den) / (2 * den)
  toString (tenths / 10) ++ "." ++ toString (tenths % 10)

/-- The loop of `Tools._format_size`.  The running float is represented by
the exact fraction `num / den`; each `size /= 1024.0` multiplies `den` by
1024 (binary64 division by 1024 is exact below `2^53`, so the comparison
`size < 1024.0` is exactly `num < 1024 · den`). -/
def format_size_go : Nat → Nat → List String → String
  | num, den, [] => formatFrac1 num den ++ " TB"
  | num, den, unit :: rest =>
    if num < 1024 * den then formatFrac1 num den ++ " " ++ unit
    else format_size_go num (den * 1024) rest

/-- `Tools._format_size` on a non-negative byte count. -/
def _format_size (size : Nat) : String :=
  format_size_go size 1 ["B", "KB", "MB", "GB"]

/-- `[part.strip() for part in repo.split("/") if part.strip()]` (the
comprehension filters on the truthiness of the stripped part and collects
the stripped part, i.e. strip first, then drop empties). -/
def repoParts (repo : String) : List String :=
  ((pySplitChar '/' repo).map pyStrip).filter (fun p => p ≠ "")

/-- `Tools._split_repo`. -/
def _split_repo (repo : String) : Option (String × String) :=
  match repoParts repo with
  | [a, b] => some (a, b)
  | _ => none

/-- `f"{s:>{w}}"` — right-justify to width `w` with spaces. -/
def rjust (s : String) (w : Nat) : String :=
  (⟨List.replicate (w - s.length) ' '⟩ : String) ++ s

/-- `Tools._render_code_block`. -/
def _render_code_block (content lang : String) (show_line_numbers syntax_highlighting : Bool) : String :=
  let fence_lang := if syntax_highlighting && lang ≠ "" then lang else ""
  let block := ["```" ++ fence_lang ++ "\n"]
  let block :=
    if show_line_numbers then
      let lines := pySplitChar '\n' content
      let width0 := (toString lines.length).length
      let width := if width0 = 0 then 1 else width0
      block ++ ((List.enumFrom 1 lines).map fun p => rjust (toString p.1) width ++ " | " ++ p.2 ++ "\n")
    else
      block ++ [content] ++ (if content.data.getLast? = some '\n' then [] else ["\n"])
  String.join (block ++ ["```\n"])

/-- Truthiness of an optional string (`None` and `""` are falsy). -/
def pyTruthy : Option String → Bool
  | none => false
  | some s => s ≠ ""

/-- Python `a or b` for an optional string `a` and default `b`. -/
def pyOrStr : Option String → String → String
  | some s, d => if s ≠ "" then s else d
  | none, d => d

/-- A status event `{"type": "status", "data": {"description": …, "done": …}}`. -/
def statusEvent (description : String) (done : Bool) : Json :=
  .obj [("type", .str "status"),
        ("data", .obj [("description", .str description), ("done", .bool done)])]

/-- A terminal status event
`{"type": "status", "data": {"description": …, "done": True, "hidden": True}}`. -/
def statusHidden (description : String) : Json :=
  .obj [("type", .str "status"),
        ("data", .obj [("description", .str description), ("done", .bool true), ("hidden", .bool true)])]

/-- The JSON object decoded from the `contents` endpoint response, seen
through the `.get` calls `read_file` performs (`none` = key absent). -/
structure GHFileData where
  type : Option String := none
  size : Option Int := none
  content : Option String := none
  name : Option String := none

/-- Environment of one `read_file` call: the outcome of `_make_request`
(upstream success/exception) and oracles for `base64.b64decode` (which can
raise) and `bytes.decode("utf-8")` (`none` = `UnicodeDecodeError`). -/
structure GHEnv where
  request : Except PyError GHFileData
  b64decode : String → Except PyError (List Nat)
  utf8decode : List Nat → Option String

/-- `Tools.read_file`. -/
def read_file (valves : GHValves) (repo file_path : String) (branch : Option String)
    (user : Supplied GHUserValves) (emit : Bool) (env : GHEnv) : String × List Json :=
  let user_valves := ghGetUserValves user
  let evs := emitIf (emit && valves.enable_status_updates)
    (statusEvent ("Reading " ++ file_path) false) []
  match _split_repo repo with
  | none => ("Invalid repo format. Use owner/repo", evs)
  | some _owner_repo =>
    match env.request with
    | .error e =>
      ("Error: " ++ e.msg,
       emitIf (emit && valves.enable_status_updates) (statusEvent ("Error: " ++ e.msg) true) evs)
    | .ok file_data =>
      if file_data.type ≠ some "file" then (file_path ++ " is not a file", evs)
      else
        let file_size := file_data.size.getD 0
        if file_size > valves.max_file_size then
          ("File too large: " ++ toString file_size ++ " bytes", evs)
        else
          let content_encoded := file_data.content.getD ""
          if content_encoded = "" then ("File content is empty", evs)
          else
            match env.b64decode content_encoded with
            | .error e =>
              ("Error: " ++ e.msg,
               emitIf (emit && valves.enable_status_updates) (statusEvent ("Error: " ++ e.msg) true) evs)
            | .ok content_bytes =>
              match env.utf8decode content_bytes with
              | none => ("Binary file (" ++ toString file_size ++ " bytes)", evs)
              | some content =>
                let ext := if pyContainsChar '.' file_path then
                    ((pySplitChar '.' file_path).getLast?).getD "" else ""
                let lang := _detect_language ext
                let output :=
                  ["# " ++ (file_data.name.getD file_path) ++ "\n\n",
                   "**Repository:** " ++ repo ++ "\n",
                   "**Path:** `" ++ file_path ++ "`\n"]
                  ++ (if pyTruthy branch then ["**Branch:** " ++ (branch.getD "") ++ "\n"] else [])
                  ++ ["**Size:** " ++ toString file_size ++ " bytes\n\n",
                      "---\n\n",
                      _render_code_block content lang user_valves.show_line_numbers
                        user_valves.syntax_highlighting]
                let joined := String.join output
                let file_url := "https://github.com/" ++ repo ++ "/blob/"
                  ++ pyOrStr branch valves.default_branch ++ "/" ++ file_path
                let evs := emitIf emit
                  (.obj [("type", .str "citation"),
                         ("data", .obj
                           [("document", .arr [.str joined]),
                            ("metadata", .arr [.obj [("source", .str ("GitHub: " ++ repo)),
                                                     ("file_path", .str file_path)]]),
                            ("source", .obj [("name", .str (repo ++ "/" ++ file_path)),
                                             ("url", .str file_url)])])]) evs
                let evs := emitIf (emit && valves.enable_status_updates) (statusHidden "Done") evs
                (joined, evs)

/-- The error string for a malformed entry of the `files` argument of
`create_gist`. -/
def gistEntryError : String :=
  "Invalid file format. Use: filename.ext=content|||filename2.ext=content2"

/-- `files_dict[filename] = {...}` on a Python `dict` modelled as an
insertion-ordered association list: assigning to an existing key updates the
value in place, a new key is appended. -/
def dictInsert (d : List (String × String)) (k v : String) : List (String × String) :=
  if d.any (fun p => p.1 = k) then d.map (fun p => if p.1 = k then (k, v) else p)
  else d ++ [(k, v)]

/-- The `for entry in file_entries:` loop of `create_gist`: strip the entry,
require a `=`, split once, strip filename and content, require a non-empty
filename, insert into `files_dict`. -/
def gistFilesLoop : List String → List (String × String) → Except String (List (String × String))
  | [], files_dict => .ok files_dict
  | entry0 :: rest, files_dict =>
    let entry := pyStrip entry0
    if !(pyContainsChar '=' entry) then .error gistEntryError
    else
      let fc := pySplitOnce '=' entry
      let filename := pyStrip fc.1
      let content := pyStrip fc.2
      if filename = "" then .error "Filename cannot be empty"
      else gistFilesLoop rest (dictInsert files_dict filename content)

/-- Parsing of the `files` argument of `create_gist`
(`files.split("|||")` then the entry loop). -/
def parse_gist_files (files : String) : Except String (List (String × String)) :=
  gistFilesLoop (pySplitTripleBar files) []

/-- The created gist as returned by `POST /gists`, seen through the fields
`create_gist` reads. -/
structure GHGist where
  id : String := ""
  html_url : Option String := none

/-- `Tools.create_gist`.  `env` is the outcome of
`_make_request("/gists", method="POST", …)`. -/
def create_gist (valves : GHValves) (description files : String) (public : Bool)
    (emit : Bool) (env : Except PyError GHGist) : String × List Json :=
  if valves.github_token = "" then ("GitHub token required to create gists", [])
  else
    let evs := emitIf (emit && valves.enable_status_updates) (statusEvent "Creating gist" false) []
    match parse_gist_files files with
    | .error m => (m, evs)
    | .ok files_dict =>
      if files_dict = [] then ("At least one file is required", evs)
      else
        match env with
        | .error e => ("Error: " ++ e.msg, evs)
        | .ok gist =>
          let output :=
            ["# Gist Created Successfully!\n\n",
             "**ID:** `" ++ gist.id ++ "`\n",
             "**Description:** " ++ description ++ "\n",
             "**Visibility:** " ++ (if public then "Public" else "Secret") ++ "\n",
             "**Files:** " ++ String.intercalate ", " (files_dict.map Prod.fst) ++ "\n",
             "\n**URL:** " ++ (gist.html_url.getD "") ++ "\n"]
          (String.join output,
           emitIf (emit && valves.enable_status_updates) (statusHidden "Gist created") evs)

/-! ## `tools/paperless.py` -/

/-- `Tools.Valves` of the Paperless tool.  `max_document_size` is declared
`int` in the source; byte sizes are non-negative, so it is modelled as a
natural number. -/
structure PLValves where
  paperless_url : String := "http://localhost:8000"
  api_token : String := ""
  api_version : Int := 5
  default_page_size : Int := 10
  max_document_size : Nat := 500000
  enable_status_updates : Bool := true

/-- `Tools.UserValves` of the Paperless tool. -/
structure PLUserValves where
  include_content : Bool := true
  max_results : Int := 5
  show_highlights : Bool := true
deriving DecidableEq

/-- The Python type name of a dynamic value (for error messages). -/
def pyTypeName : PyVal → String
  | .vInt _ => "int"
  | .vStr _ => "str"
  | .vBool _ => "bool"
  | .vDict _ => "dict"

/-- pydantic (v2, lax mode) validation of a `bool` field.  Modelled
fragment: actual booleans, the ints 0/1 and the usual boolean strings are
accepted, everything else raises a validation error. -/
def pydBool : PyVal → Except PyError Bool
  | .vBool b => .ok b
  | .vInt n =>
    if n = 0 then .ok false
    else if n = 1 then .ok true
    else .error (.validationError "Input should be a valid boolean")
  | .vStr s =>
    if pyLower s ∈ ["true", "1", "yes", "on"] then .ok true
    else if pyLower s ∈ ["false", "0", "no", "off"] then .ok false
    else .error (.validationError "Input should be a valid boolean")
  | _ => .error (.validationError "Input should be a valid boolean")

/-- pydantic (v2, lax mode) validation of an `int` field.  Modelled
fragment: actual ints and integer-shaped strings are accepted, everything
else raises a validation error. -/
def pydInt : PyVal → Except PyError Int
  | .vInt n => .ok n
  | .vStr s =>
    match pyInt s with
    | .ok n => .ok n
    | .error _ => .error (.validationError "Input should be a valid integer")
  | _ => .error (.validationError "Input should be a valid integer")

/-- Look up a `bool` field in the keyword dict, falling back to the
declared default when absent (unknown keys are ignored by pydantic). -/
def pydFieldBool (fields : List (String × PyVal)) (key : String) (d : Bool) : Except PyError Bool :=
  match fields.lookup key with
  | none => .ok d
  | some v => pydBool v

/-- Look up an `int` field in the keyword dict, falling back to the
declared default when absent. -/
def pydFieldInt (fields : List (String × PyVal)) (key : String) (d : Int) : Except PyError Int :=
  match fields.lookup key with
  | none => .ok d
  | some v => pydInt v

/-- `self.UserValves(**dict(user_valves))` for a dict-shaped value. -/
def plUserValvesOfDict (fields : List (String × PyVal)) : Except PyError PLUserValves := do
  let include_content ← pydFieldBool fields "include_content" true
  let max_results ← pydFieldInt fields "max_results" 5
  let show_highlights ← pydFieldBool fields "show_highlights" true
  .ok { include_content := include_content, max_results := max_results,
        show_highlights := show_highlights }

/-- `user_valves = __user__.get("valves", self.UserValves())` followed by
`if not isinstance(user_valves, self.UserValves): user_valves = self.UserValves(**dict(user_valves))`.
A non-dict value makes `dict(user_valves)` raise `TypeError`; a dict with
wrong-typed fields makes the pydantic constructor raise.  This code runs
before the operation's `try:` block. -/
def plGetUserValves : Supplied PLUserValves → Except PyError PLUserValves
  | .missing => .ok {}
  | .inst v => .ok v
  | .raw (.vDict fields) => plUserValvesOfDict fields
  | .raw v => .error (.typeError ("\x27" ++ pyTypeName v ++ "\x27 object is not iterable"))

/-- `f"{v:.3f}"` for the exact non-negative rational `num / den`
(round-half-up model of float formatting, as in `formatFrac1`). -/
def formatFrac3 (num den : Nat) : String :=
  let thousandths := (2 * num * 1000 + den) / (2 * den)
  let s := toString (thousandths % 1000)
  toString (thousandths / 1000) ++ "." ++ (⟨List.replicate (3 - s.length) '0'⟩ : String) ++ s

/-- The scan of `re.sub(r"<[^>]+>", "**", s)`: the first argument is the
remaining input, the second the chars collected since an unclosed `<`
(in reverse), `none` when outside a candidate tag. -/
def stripTagsGo : List Char → Option (List Char) → List Char
  | [], none => []
  | [], some buf => '<' :: buf.reverse
  | c :: rest, none => if c = '<' then stripTagsGo rest (some []) else c :: stripTagsGo rest none
  | c :: rest, some buf =>
    if c = '>' then
      if buf = [] then '<' :: '>' :: stripTagsGo rest none
      else '*' :: '*' :: stripTagsGo rest none
    else stripTagsGo rest (some (c :: buf))

/-- `re.sub(r"<[^>]+>", "**", s)` — replace every HTML tag by `**`. -/
def stripHtmlTags (s : String) : String :=
  ⟨stripTagsGo s.data none⟩

/-- The `__search_hit__` object of a search result document.  The float
relevance score is modelled as the exact fraction `scoreNum / scoreDen`
(`search_hit.get("score", 0)` defaults to 0). -/
structure PLSearchHit where
  scoreNum : Nat := 0
  scoreDen : Nat := 1
  highlights : Option String := none

/-- A `correspondent` / `document_type` value: a JSON object (with an
optional `name`) or any other value, shown through `str(...)`. -/
inductive PLRef where
  | objRef (name : Option String)
  | rawRef (str : String)

/-- One element of a document's `tags` list: a JSON object (with an
optional `name`) or any other value, shown through `str(...)`. -/
inductive PLTagVal where
  | tagObj (name : Option String)
  | tagRaw (str : String)

/-- A document object decoded from the Paperless API, seen through the
`.get`/`[...]` accesses the tool performs (`none` = key absent;
`doc["id"]` is accessed unconditionally, so `id` is a plain field). -/
structure PLDoc where
  id : Int
  title : Option String := none
  searchHit : Option PLSearchHit := none
  created : Option String := none
  added : Option String := none
  correspondent : Option PLRef := none
  document_type : Option PLRef := none
  tags : List PLTagVal := []
  archive_serial_number : Option Int := none
  notes : Option String := none
  content : Option String := none

/-- The response of `GET /api/documents/` as used by `search_documents`:
`results` (absent/empty = falsy) and the optional `count`. -/
structure PLSearchResults where
  results : List PLDoc := []
  count : Option Int := none

/-- Environment of one Paperless operation: the outcome of
`_make_request` for the search request and for each by-id document request
(`_make_request` folds transport errors, bad statuses and JSON decoding
into one raised exception), plus `urllib.parse.urljoin` as an oracle. -/
structure PLEnv where
  search : Except PyError PLSearchResults
  doc : Int → Except PyError PLDoc
  urljoin : String → String → String

/-- The name of a tag entry: `tag.get("name", "Unknown")` for dicts,
`str(tag)` otherwise. -/
def plTagName : PLTagVal → String
  | .tagObj name => name.getD "Unknown"
  | .tagRaw s => s

/-- `Tools._format_document`. -/
def _format_document (doc : PLDoc) (position : Option Int) (user_valves : PLUserValves) : String :=
  let title := doc.title.getD "Untitled"
  let parts :=
    if (match position with | some n => n != 0 | none => false) then
      ["## " ++ toString (position.getD 0) ++ ". " ++ title ++ " (ID: #" ++ toString doc.id ++ ")\n\n"]
    else
      ["## " ++ title ++ " (ID: #" ++ toString doc.id ++ ")\n\n"]
  let parts := parts ++
    (match doc.searchHit with
     | none => []
     | some search_hit =>
       ["**Relevance Score:** " ++ formatFrac3 search_hit.scoreNum search_hit.scoreDen ++ "\n\n"]
       ++ (if user_valves.show_highlights && pyTruthy search_hit.highlights then
             ["**Highlights:** " ++ stripHtmlTags (search_hit.highlights.getD "") ++ "\n\n"]
           else []))
  let parts := parts ++ (if pyTruthy doc.created then ["**Created:** " ++ doc.created.getD "" ++ "\n"] else [])
  let parts := parts ++ (if pyTruthy doc.added then ["**Added:** " ++ doc.added.getD "" ++ "\n"] else [])
  let parts := parts ++
    (match doc.correspondent with
     | none => []
     | some (.objRef name) => ["**Correspondent:** " ++ name.getD "Unknown" ++ "\n"]
     | some (.rawRef s) => ["**Correspondent ID:** " ++ s ++ "\n"])
  let parts := parts ++
    (match doc.document_type with
     | none => []
     | some (.objRef name) => ["**Type:** " ++ name.getD "Unknown" ++ "\n"]
     | some (.rawRef s) => ["**Type ID:** " ++ s ++ "\n"])
  let parts := parts ++
    (if !doc.tags.isEmpty then
       ["**Tags:** " ++ String.intercalate ", " (doc.tags.map plTagName) ++ "\n"]
     else [])
  let parts := parts ++
    (match doc.archive_serial_number with
     | some asn => if asn ≠ 0 then ["**ASN:** " ++ toString asn ++ "\n"] else []
     | none => [])
  let parts := parts ++
    (if pyTruthy doc.notes then
       let notes := doc.notes.getD ""
       let notes_preview := (⟨notes.data.take 200⟩ : String)
         ++ (if notes.data.length > 200 then "..." else "")
       ["\n**Notes:** " ++ notes_preview ++ "\n"]
     else [])
  String.join (parts ++ ["\n"])

/-- The truncation applied to a document's content before rendering:
`if len(content) > self.valves.max_document_size: content = content[:max] + "\n\n[Content truncated...]"`
(shared verbatim by `search_documents`, `get_document_by_id`,
`advanced_document_search` and `search_by_tags`). -/
def truncateDocContent (max_document_size : Nat) (content : String) : String :=
  if content.length > max_document_size then
    (⟨content.data.take max_document_size⟩ : String) ++ "\n\n[Content truncated...]"
  else content

/-- `Tools._get_document_content`: fetch the document and return
`doc.get("content", "")`, or `None` when the request raised. -/
def _get_document_content (env : PLEnv) (document_id : Int) : Option String :=
  match env.doc document_id with
  | .ok doc => some (doc.content.getD "")
  | .error _ => none

/-- The citation event emitted per document by `search_documents`. -/
def plSearchCitation (document sourceLabel title sourceName url : String)
    (doc_id : Int) (added : Option String) (corrName : Option String) : Json :=
  .obj [("type", .str "citation"),
        ("data", .obj
          [("document", .arr [.str document]),
           ("metadata", .arr [.obj
             [("source", .str sourceLabel),
              ("title", .str title),
              ("document_id", .num doc_id),
              ("added", match added with | some a => .str a | none => .null),
              ("correspondent", match corrName with | some c => .str c | none => .null)]]),
           ("source", .obj [("name", .str sourceName), ("url", .str url)])])]

/-- The per-document body of the `for idx, doc in enumerate(documents, 1):`
loop of `search_documents`: returns the output parts and the citation
events, in order. -/
def plSearchLoop (valves : PLValves) (user_valves : PLUserValves) (emit : Bool) (env : PLEnv) :
    List PLDoc → Int → List String × List Json
  | [], _ => ([], [])
  | doc :: rest, idx =>
    let title := doc.title.getD "Untitled"
    let doc_output := _format_document doc (some idx) user_valves
    -- `content` is bound only under `if user_valves.include_content:`; the
    -- citation guard short-circuits on `include_content` first, so the
    -- unbound case is never read.
    let contentOpt := if user_valves.include_content then _get_document_content env doc.id else none
    let truthy := pyTruthy contentOpt
    let content := if truthy then truncateDocContent valves.max_document_size (contentOpt.getD "")
                   else contentOpt.getD ""
    let content_parts :=
      if user_valves.include_content && truthy then
        ["\n**Full Document Content:**\n\n" ++ content ++ "\n\n"]
      else []
    let doc_url := env.urljoin valves.paperless_url ("/documents/" ++ toString doc.id)
    let cit := plSearchCitation
      (doc_output ++ (if user_valves.include_content && truthy then "\n\n" ++ content else ""))
      ("Paperless Document #" ++ toString doc.id) title
      ("#" ++ toString doc.id ++ ": " ++ title) doc_url doc.id doc.added
      (match doc.correspondent with
       | some (.objRef name) => name
       | _ => none)
    let r := plSearchLoop valves user_valves emit env rest (idx + 1)
    ([doc_output] ++ content_parts ++ ["---\n\n"] ++ r.1,
     emitIf emit cit [] ++ r.2)

/-- `Tools.search_documents`.  The `UserValves` coercion runs before the
`try:` block, so its exception escapes (`Except.error`); everything inside
the `try:` is converted to a returned string. -/
def search_documents (valves : PLValves) (query : String) (user : Supplied PLUserValves)
    (emit : Bool) (env : PLEnv) : Except PyError String × List Json :=
  if valves.api_token = "" then
    (.ok "Paperless-ngx API token not configured. Please set it in the tool settings.", [])
  else
    match plGetUserValves user with
    | .error e => (.error e, [])
    | .ok user_valves =>
      let max_results := min user_valves.max_results 25
      let evs := emitIf (emit && valves.enable_status_updates)
        (statusEvent ("Searching Paperless for: " ++ query) false) []
      match env.search with
      | .error e =>
        let evs := emitIf (emit && valves.enable_status_updates)
          (statusEvent ("Error: " ++ e.msg) true) evs
        (.ok ("Error searching documents: " ++ e.msg), evs)
      | .ok results =>
        if results.results.isEmpty then
          let evs := emitIf (emit && valves.enable_status_updates)
            (statusEvent "No documents found" true) evs
          (.ok ("No documents found matching: \x27" ++ query ++ "\x27"), evs)
        else
          let documents := results.results
          let total_count := results.count.getD (documents.length : Int)
          let evs := emitIf (emit && valves.enable_status_updates)
            (statusEvent ("Found " ++ toString total_count ++ " documents, retrieving content...") false) evs
          let output_parts :=
            ["# Search Results for: " ++ query ++ "\n",
             "Found " ++ toString total_count ++ " documents, showing top "
               ++ toString documents.length ++ ":\n\n",
             "---\n\n"]
          let r := plSearchLoop valves user_valves emit env documents 1
          let evs := evs ++ r.2
          let evs := emitIf (emit && valves.enable_status_updates)
            (statusHidden ("Retrieved " ++ toString documents.length ++ " documents")) evs
          (.ok (String.join (output_parts ++ r.1)), evs)

/-- `Tools.get_document_by_id`. -/
def get_document_by_id (valves : PLValves) (document_id : Int) (user : Supplied PLUserValves)
    (emit : Bool) (env : PLEnv) : Except PyError String × List Json :=
  if valves.api_token = "" then (.ok "Paperless-ngx API token not configured.", [])
  else
    match plGetUserValves user with
    | .error e => (.error e, [])
    | .ok user_valves =>
      let evs := emitIf (emit && valves.enable_status_updates)
        (statusEvent ("Retrieving document #" ++ toString document_id) false) []
      match env.doc document_id with
      | .error e =>
        (.ok ("Error retrieving document #" ++ toString document_id ++ ": " ++ e.msg), evs)
      | .ok doc =>
        let output0 := [_format_document doc none user_valves]
        let contentOpt := if user_valves.include_content then _get_document_content env document_id else none
        let truthy := pyTruthy contentOpt
        let content := if truthy then truncateDocContent valves.max_document_size (contentOpt.getD "")
                       else contentOpt.getD ""
        let output_parts := output0 ++
          (if user_valves.include_content && truthy then
             ["\n**Full Document Content:**\n\n" ++ content ++ "\n\n"]
           else [])
        let doc_url := env.urljoin valves.paperless_url ("/documents/" ++ toString document_id)
        let evs := emitIf emit
          (.obj [("type", .str "citation"),
                 ("data", .obj
                   [("document", .arr [.str (String.join output_parts)]),
                    ("metadata", .arr [.obj
                      [("source", .str ("Paperless Document #" ++ toString document_id)),
                       ("title", .str (doc.title.getD "Untitled")),
                       ("document_id", .num document_id)]]),
                    ("source", .obj
                      [("name", .str ("#" ++ toString document_id ++ ": " ++ doc.title.getD "Untitled")),
                       ("url", .str doc_url)])])]) evs
        let evs := emitIf (emit && valves.enable_status_updates)
          (statusHidden "Document retrieved successfully") evs
        (.ok (String.join output_parts), evs)

/-! ## `tools/web_content_extractor.py` -/

/-- `Tools.Valves` of the web content extractor. -/
structure WCValves where
  default_timeout : Int := 30
  max_content_length : Int := 1000000
  user_agent : String := "Mozilla/5.0 (Windows NT 10.0; Win64; x64) AppleWebKit/537.36"
  enable_status_updates : Bool := true

/-- `Tools.UserValves` of the web content extractor. -/
structure WCUserValves where
  preferred_method : String := "auto"
  include_links : Bool := true
  show_metadata : Bool := true
deriving DecidableEq

/-- pydantic (v2, lax mode) validation of a `str` field: only actual
strings are accepted. -/
def pydStr : PyVal → Except PyError String
  | .vStr s => .ok s
  | _ => .error (.validationError "Input should be a valid string")

/-- Look up a `str` field in the keyword dict, falling back to the declared
default when absent. -/
def pydFieldStr (fields : List (String × PyVal)) (key : String) (d : String) : Except PyError String :=
  match fields.lookup key with
  | none => .ok d
  | some v => pydStr v

/-- `self.UserValves(**dict(user_valves))` for a dict-shaped value. -/
def wcUserValvesOfDict (fields : List (String × PyVal)) : Except PyError WCUserValves := do
  let preferred_method ← pydFieldStr fields "preferred_method" "auto"
  let include_links ← pydFieldBool fields "include_links" true
  let show_metadata ← pydFieldBool fields "show_metadata" true
  .ok { preferred_method := preferred_method, include_links := include_links,
        show_metadata := show_metadata }

/-- `user_valves = __user__.get("valves", self.UserValves())` followed by
the `isinstance` check and `self.UserValves(**dict(user_valves))` — as in
the Paperless tool, this runs before any `try:` block and its exception
escapes. -/
def wcGetUserValves : Supplied WCUserValves → Except PyError WCUserValves
  | .missing => .ok {}
  | .inst v => .ok v
  | .raw (.vDict fields) => wcUserValvesOfDict fields
  | .raw v => .error (.typeError ("\x27" ++ pyTypeName v ++ "\x27 object is not iterable"))

/-- The metadata dict produced by an extraction strategy, seen through
`metadata.get(...)` (`none` = key absent; the strategies store `""` for
unknown values, which is present-but-falsy). -/
structure WCMeta where
  title : Option String := none
  author : Option String := none
  date : Option String := none

/-- The outcome of `requests.get(url, ...)` / `raise_for_status()` /
`response.text` for one URL: a timeout, another request exception, or a
response with its optional `content-length` header and body text. -/
inductive WCFetch where
  | timeout
  | reqError (msg : String)
  | ok (content_length : Option String) (text : String)

/-- Environment of the web content extractor.  `has_trafilatura` /
`has_readability` are the import probes of `__init__`; `validUrl` models
`bool(urlparse(url).scheme and urlparse(url).netloc)`; `traf`, `readab`
and `basic` are the results of `_extract_with_trafilatura(html, url,
include_links)`, `_extract_with_readability(html, include_links)` and
`_extract_basic(html, include_links)` — in the source these delegate to
the external extraction libraries inside `try/except`, returning
`(None, {})` (resp. an error string) on failure, so their overall results
are oracles here.  `now` is `datetime.now().isoformat()`. -/
structure WCEnv where
  hasTraf : Bool
  hasRead : Bool
  validUrl : String → Bool
  fetch : String → WCFetch
  traf : String → String → Bool → Option String × WCMeta
  readab : String → Bool → Option String × WCMeta
  basic : String → Bool → String × WCMeta
  now : String

/-- Python falsiness of an extraction result's content
(`not content` — `None` and `""` are falsy). -/
def contentFalsy : Option String → Bool
  | none => true
  | some s => s.data.isEmpty

/-- The `method == "auto"` strategy selection of `fetch_url_content`:

```
content = None; metadata = {}
if self.has_trafilatura: content, metadata = traf
if not content and self.has_readability: content, metadata = readab
if not content: content, metadata = basic
```
-/
def autoSelect (hasTraf hasRead : Bool) (traf readab : Option String × WCMeta)
    (basic : String × WCMeta) : Option String × WCMeta :=
  let cm : Option String × WCMeta := (none, {})
  let cm := if hasTraf then traf else cm
  let cm := if contentFalsy cm.1 && hasRead then readab else cm
  if contentFalsy cm.1 then (some basic.1, basic.2) else cm

/-- The citation event emitted by `fetch_url_content` (the `author` /
`published_date` keys are added only when truthy). -/
def wcCitation (content url : String) (metadata : WCMeta) (now : String) : Json :=
  .obj [("type", .str "citation"),
        ("data", .obj
          [("document", .arr [.str content]),
           ("metadata", .arr [.obj
             ([("source", .str url), ("date_accessed", .str now)]
              ++ (if pyTruthy metadata.author then [("author", .str (metadata.author.getD ""))] else [])
              ++ (if pyTruthy metadata.date then [("published_date", .str (metadata.date.getD ""))] else []))]),
           ("source", .obj [("name", .str (metadata.title.getD url)), ("url", .str url)])])]

/-- The tail of `fetch_url_content` after extraction: the `if not content:`
guard, the citation and completion events, and the output assembly
(metadata header when `show_metadata`, then the content). -/
def wcFinish (valves : WCValves) (url : String) (emit : Bool) (evs : List Json)
    (show_metadata : Bool) (cm : Option String × WCMeta) (now : String) :
    Except PyError String × List Json :=
  if contentFalsy cm.1 then (.ok "Could not extract content from the page", evs)
  else
    let content := cm.1.getD ""
    let metadata := cm.2
    let evs := emitIf emit (wcCitation content url metadata now) evs
    let evs := emitIf (emit && valves.enable_status_updates)
      (statusHidden "Content extracted successfully") evs
    let output_parts :=
      (if show_metadata then
        ["# " ++ (metadata.title.getD "Web Content") ++ "\n",
         "**Source:** " ++ url ++ "\n"]
        ++ (if pyTruthy metadata.author then ["**Author:** " ++ metadata.author.getD "" ++ "\n"] else [])
        ++ (if pyTruthy metadata.date then ["**Date:** " ++ metadata.date.getD "" ++ "\n"] else [])
        ++ ["\n---\n\n"]
      else [])
      ++ [content]
    (.ok (String.join output_parts), evs)

/-- `Tools.fetch_url_content`. -/
def fetch_url_content (valves : WCValves) (url : String) (user : Supplied WCUserValves)
    (emit : Bool) (env : WCEnv) : Except PyError String × List Json :=
  match wcGetUserValves user with
  | .error e => (.error e, [])
  | .ok user_valves =>
    let method := user_valves.preferred_method
    let include_links := user_valves.include_links
    let show_metadata := user_valves.show_metadata
    let evs := emitIf (emit && valves.enable_status_updates)
      (statusEvent ("Fetching content from " ++ url ++ "...") false) []
    if !(env.validUrl url) then
      (.ok "❌ Invalid URL format. Please provide a complete URL (e.g., https://example.com)", evs)
    else
      match env.fetch url with
      | .timeout =>
        let evs := emitIf (emit && valves.enable_status_updates)
          (statusEvent "Request timed out" true) evs
        (.ok ("Request timed out after " ++ toString valves.default_timeout ++ " seconds"), evs)
      | .reqError m =>
        let evs := emitIf (emit && valves.enable_status_updates)
          (statusEvent "Failed to fetch URL" true) evs
        (.ok ("Error fetching URL: " ++ m), evs)
      | .ok content_length text =>
        -- `if content_length and int(content_length) > self.valves.max_content_length:`
        -- `int()` on a malformed header raises `ValueError`, which the
        -- surrounding `except` clauses (Timeout / RequestException) do not
        -- catch, so it escapes.
        let cl_check : Except PyError Bool :=
          if pyTruthy content_length then
            match pyInt (content_length.getD "") with
            | .error e => .error e
            | .ok n => .ok (n > valves.max_content_length)
          else .ok false
        match cl_check with
        | .error e => (.error e, evs)
        | .ok true =>
          (.ok ("Content too large (" ++ content_length.getD "" ++ " bytes). Maximum: "
            ++ toString valves.max_content_length), evs)
        | .ok false =>
          let html_content := text
          let evs := emitIf (emit && valves.enable_status_updates)
            (statusEvent ("Extracting content using " ++ method ++ " method...") false) evs
          if method = "auto" then
            wcFinish valves url emit evs show_metadata
              (autoSelect env.hasTraf env.hasRead (env.traf html_content url include_links)
                (env.readab html_content include_links) (env.basic html_content include_links))
              env.now
          else if method = "trafilatura" then
            if !env.hasTraf then
              (.ok "Trafilatura not available. Change method to \x27auto\x27 or \x27basic\x27 in user settings.", evs)
            else
              wcFinish valves url emit evs show_metadata (env.traf html_content url include_links) env.now
          else if method = "readability" then
            if !env.hasRead then
              (.ok "Readability not available. Change method to \x27auto\x27 or \x27basic\x27 in user settings.", evs)
            else
              wcFinish valves url emit evs show_metadata (env.readab html_content include_links) env.now
          else if method = "basic" then
            let b := env.basic html_content include_links
            wcFinish valves url emit evs show_metadata (some b.1, b.2) env.now
          else
            (.ok ("Unknown extraction method: " ++ method), evs)

/-- `[url.strip() for url in urls.split(",") if url.strip()]`. -/
def wcUrlList (urls : String) : List String :=
  ((pySplitChar ',' urls).map pyStrip).filter (fun u => u ≠ "")

/-- The `for i, url in enumerate(url_list, 1):` loop of
`fetch_multiple_urls`: per URL, a status event, the (awaited)
`fetch_url_content` call — whose exception, if any, escapes — the result
appended to `results`, and a `"\n\n---\n\n"` separator after every result
but the last. -/
def fmLoop (valves : WCValves) (user : Supplied WCUserValves) (emit : Bool) (env : WCEnv)
    (n : Nat) : List String → Nat → List String → List Json →
    Except PyError (List String) × List Json
  | [], _, results, evs => (.ok results, evs)
  | url :: rest, i, results, evs =>
    let evs := emitIf (emit && valves.enable_status_updates)
      (statusEvent ("Processing URL " ++ toString i ++ "/" ++ toString n ++ ": " ++ url) false) evs
    let fr := fetch_url_content valves url user emit env
    match fr.1 with
    | .error e => (.error e, evs ++ fr.2)
    | .ok content =>
      let results := results ++ [content]
      let results := if i < n then results ++ ["\n\n---\n\n"] else results
      fmLoop valves user emit env n rest (i + 1) results (evs ++ fr.2)

/-- `Tools.fetch_multiple_urls`. -/
def fetch_multiple_urls (valves : WCValves) (urls : String) (user : Supplied WCUserValves)
    (emit : Bool) (env : WCEnv) : Except PyError String × List Json :=
  let url_list := wcUrlList urls
  if url_list.isEmpty then
    (.ok "No valid URLs provided. Please provide comma-separated URLs.", [])
  else
    let evs := emitIf (emit && valves.enable_status_updates)
      (statusEvent ("Processing " ++ toString url_list.length ++ " URLs...") false) []
    let r := fmLoop valves user emit env url_list.length url_list 1 [] evs
    match r.1 with
    | .error e => (.error e, r.2)
    | .ok results =>
      let evs := emitIf (emit && valves.enable_status_updates)
        (statusHidden ("Completed processing " ++ toString url_list.length ++ " URLs")) r.2
      (.ok (String.join results), evs)

/-- Claim-side specification (C8): the per-URL results in input order with
the separator `"\n\n---\n\n"` between consecutive results and none after
the last; the first raised exception aborts the whole call. -/
def sepInterleave (f : String → Except PyError String) : List String → Except PyError (List String)
  | [] => .ok []
  | [u] => (f u).map (fun r => [r])
  | u :: rest =>
    match f u with
    | .error e => .error e
    | .ok r => (sepInterleave f rest).map (fun rs => r :: "\n\n---\n\n" :: rs)

/-- Claim-side specification (C8) of the event trace of the loop: a status
update before each fetch, then that fetch's own events, strictly in input
order, stopping at the first raised exception. -/
def fmTraceSpec (valves : WCValves) (user : Supplied WCUserValves) (emit : Bool) (env : WCEnv)
    (n : Nat) : List String → Nat → List Json
  | [], _ => []
  | url :: rest, i =>
    let ev := emitIf (emit && valves.enable_status_updates)
      (statusEvent ("Processing URL " ++ toString i ++ "/" ++ toString n ++ ": " ++ url) false) []
    let fr := fetch_url_content valves url user emit env
    match fr.1 with
    | .error _ => ev ++ fr.2
    | .ok _ => ev ++ fr.2 ++ fmTraceSpec valves user emit env n rest (i + 1)

/-! ## Claim-side specifications and concrete test fixtures -/

/-- Claim-side specification (C7): the unit the claim assigns to a byte
size, with the boundary exactly 1024 between successive units. -/
def specSizeUnit (size : Nat) : String :=
  if size < 1024 then "B"
  else if size < 1024 ^ 2 then "KB"
  else if size < 1024 ^ 3 then "MB"
  else if size < 1024 ^ 4 then "GB"
  else "TB"

/-- The (trimmed) filename of one `filename=content` entry of the `files`
argument of `create_gist`. -/
def entryName (e : String) : String :=
  pyStrip (pySplitOnce '=' (pyStrip e)).1

/-- Claim-side reading (C6): the filenames supplied in the `files`
argument, in input order, duplicates included. -/
def suppliedFilenames (files : String) : List String :=
  (pySplitTripleBar files).map entryName

/-- Append a key to a key list unless already present. -/
def insertNew (ks : List String) (k : String) : List String :=
  if k ∈ ks then ks else ks ++ [k]

/-- First-occurrence deduplication of a list of names. -/
def dedupFirst (l : List String) : List String :=
  l.foldl insertNew []

/-- Is this dynamic value a dict? -/
def isVDict : PyVal → Bool
  | .vDict _ => true
  | _ => false

/-- The `content-length` header for `url` is absent, empty, or parses as an
int — the condition under which `fetch_url_content`'s `int(content_length)`
does not raise. -/
def wcClOk (env : WCEnv) (url : String) : Prop :=
  match env.fetch url with
  | .ok (some s) _ => s ≠ "" → (pyInt s).isOk = true
  | _ => True

/-- A concrete GitHub environment for witnesses: the upstream request
fails. -/
def ghEnvDummy : GHEnv :=
  { request := .error (.apiError "Not found"),
    b64decode := fun _ => .ok [],
    utf8decode := fun _ => none }

/-- A concrete Paperless environment for witnesses: every request fails. -/
def plEnvDummy : PLEnv :=
  { search := .error (.apiError "API request failed: boom"),
    doc := fun _ => .error (.apiError "API request failed: boom"),
    urljoin := fun b p => b ++ p }

/-- A Paperless configuration with an API token set. -/
def plCfgTok : PLValves :=
  { api_token := "token" }

/-- A concrete web-extractor environment for witnesses. -/
def wcEnvDummy : WCEnv :=
  { hasTraf := true, hasRead := true,
    validUrl := fun _ => true,
    fetch := fun _ => .ok none "<html></html>",
    traf := fun _ _ _ => (some "T", { title := some "TT" }),
    readab := fun _ _ => (none, {}),
    basic := fun _ _ => ("B", {}),
    now := "2026-01-01T00:00:00" }

/-! ## Theorems -/

/-- `formatFrac1` always renders as an integer part, a dot, and exactly one
decimal digit. -/
theorem formatFrac1_shape (num den : Nat) :
    ∃ (n : Nat) (d : Nat), d < 10 ∧ formatFrac1 num den = toString n ++ "." ++ toString d :=
  ⟨(2 * num * 10 + den) / (2 * den) / 10, (2 * num * 10 + den) / (2 * den) % 10,
   Nat.mod_lt _ (by omega), rfl⟩

/-- Claim C7: for every non-negative byte size below the configured maximum
file size (any bound below `2^53`, where binary64 division by 1024 is
exact), `_format_size` returns a number with exactly one decimal place
followed by a unit from {B, KB, MB, GB, TB}, and the unit boundary is
exactly 1024: sizes below 1024 render in B, sizes in `[1024, 1024^2)` in
KB, and so on for each successive unit. -/
theorem claim_C7 (size : Nat) (h : size < 2 ^ 53) :
    ∃ (n : Nat) (d : Nat), d < 10 ∧
      _format_size size = (toString n ++ "." ++ toString d) ++ (" " ++ specSizeUnit size) := by
  have hB : _format_size size =
      if size < 1024 then formatFrac1 size 1 ++ " " ++ "B"
      else if size < 1024 ^ 2 then formatFrac1 size 1024 ++ " " ++ "KB"
      else if size < 1024 ^ 3 then formatFrac1 size 1048576 ++ " " ++ "MB"
      else if size < 1024 ^ 4 then formatFrac1 size 1073741824 ++ " " ++ "GB"
      else formatFrac1 size 1099511627776 ++ " TB" := by
    simp only [_format_size, format_size_go]
    norm_num
  rw [hB]
  simp only [specSizeUnit]
  split_ifs with h1 h2 h3 h4
  · obtain ⟨n, d, hd, hf⟩ := formatFrac1_shape size 1
    exact ⟨n, d, hd, by rw [hf, String.append_assoc]⟩
  · obtain ⟨n, d, hd, hf⟩ := formatFrac1_shape size 1024
    exact ⟨n, d, hd, by rw [hf, String.append_assoc]⟩
  · obtain ⟨n, d, hd, hf⟩ := formatFrac1_shape size 1048576
    exact ⟨n, d, hd, by rw [hf, String.append_assoc]⟩
  · obtain ⟨n, d, hd, hf⟩ := formatFrac1_shape size 1073741824
    exact ⟨n, d, hd, by rw [hf, String.append_assoc]⟩
  · obtain ⟨n, d, hd, hf⟩ := formatFrac1_shape size 1099511627776
    exact ⟨n, d, hd, by rw [hf, (by decide : (" " ++ "TB" : String) = " TB")]⟩

/-- Witness for C7 at the concrete size 2345 (= 2.3 KB). -/
theorem claim_C7_witness :
    (2345 : Nat) < 2 ^ 53 ∧
    ∃ (n : Nat) (d : Nat), d < 10 ∧
      _format_size 2345 = (toString n ++ "." ++ toString d) ++ (" " ++ specSizeUnit 2345) :=
  ⟨by norm_num, claim_C7 2345 (by norm_num)⟩

/-- Claim C2: content longer than `max_document_size` is truncated to
exactly `max_document_size` units with the `"[Content truncated...]"`
marker appended (after a blank line); content at or below the limit is
returned unchanged. -/
theorem claim_C2 (max_document_size : Nat) (content : String) :
    (content.length > max_document_size →
      truncateDocContent max_document_size content
          = (⟨content.data.take max_document_size⟩ : String) ++ "\n\n[Content truncated...]"
        ∧ ((⟨content.data.take max_document_size⟩ : String)).length = max_document_size)
    ∧ (content.length ≤ max_document_size →
        truncateDocContent max_document_size content = content) := by
  constructor
  · intro h
    refine ⟨by unfold truncateDocContent; rw [if_pos h], ?_⟩
    show (content.data.take max_document_size).length = max_document_size
    rw [List.length_take]
    have : content.length = content.data.length := rfl
    omega
  · intro h
    unfold truncateDocContent
    rw [if_neg (by omega)]

/-- Witness for C2: an 8-character content truncated at 5, and a short
content left unchanged. -/
theorem claim_C2_witness :
    ("abcdefgh" : String).length > 5
    ∧ truncateDocContent 5 "abcdefgh" = "abcde" ++ "\n\n[Content truncated...]"
    ∧ ("abc" : String).length ≤ 5
    ∧ truncateDocContent 5 "abc" = "abc" := by
  have h1 := (claim_C2 5 "abcdefgh").1 (by decide)
  have h2 := (claim_C2 5 "abc").2 (by decide)
  exact ⟨by decide, h1.1.trans (by decide), by decide, h2⟩

/-- Claim C5: `_split_repo` returns a pair exactly when the input has
exactly two `/`-separated parts that are non-empty after stripping; the
components are those stripped parts (hence non-empty); otherwise it returns
`None` and `read_file` returns the fixed error string. -/
theorem claim_C5 (repo : String) :
    (∀ a b, _split_repo repo = some (a, b) ↔ repoParts repo = [a, b])
    ∧ (∀ a b, _split_repo repo = some (a, b) → a ≠ "" ∧ b ≠ "")
    ∧ (_split_repo repo = none →
        ∀ valves file_path branch user emit env,
          (read_file valves repo file_path branch user emit env).1
            = "Invalid repo format. Use owner/repo") := by
  have key : ∀ a b, _split_repo repo = some (a, b) ↔ repoParts repo = [a, b] := by
    intro a b
    unfold _split_repo
    rcases hp : repoParts repo with _ | ⟨x, _ | ⟨y, _ | ⟨z, rest⟩⟩⟩ <;> simp
  refine ⟨key, ?_, ?_⟩
  · intro a b h
    have hp := (key a b).mp h
    have ha : a ∈ repoParts repo := by rw [hp]; simp
    have hb : b ∈ repoParts repo := by rw [hp]; simp
    unfold repoParts at ha hb
    have ha2 := List.of_mem_filter ha
    have hb2 := List.of_mem_filter hb
    exact ⟨by simpa using ha2, by simpa using hb2⟩
  · intro h valves file_path branch user emit env
    simp [read_file, h]

/-- Witness for C5: a well-formed repo string splits, a slash-less one is
rejected by `read_file`. -/
theorem claim_C5_witness :
    _split_repo "owner/repo" = some ("owner", "repo")
    ∧ _split_repo "noslash" = none
    ∧ (read_file {} "noslash" "f.py" none .missing false ghEnvDummy).1
        = "Invalid repo format. Use owner/repo" := by
  refine ⟨((claim_C5 "owner/repo").1 "owner" "repo").mpr (by decide), by decide, ?_⟩
  exact (claim_C5 "noslash").2.2 (by decide) {} "f.py" none .missing false ghEnvDummy

/-- `splitTripleBarAux` never returns an empty list. -/
theorem splitTripleBarAux_ne (acc l : List Char) : splitTripleBarAux acc l ≠ [] := by
  induction acc, l using splitTripleBarAux.induct with
  | case1 acc rest ih => simp [splitTripleBarAux]
  | case2 acc c rest h ih =>
    rw [splitTripleBarAux.eq_def]
    split
    · simp
    · rename_i a b heq
      cases heq
      exact ih
    · simp
  | case3 acc => simp [splitTripleBarAux]

/-- Assigning into the modelled Python dict inserts the key at the end or
leaves the key list unchanged — `insertNew` on the keys. -/
theorem dictInsert_keys (d : List (String × String)) (k v : String) :
    (dictInsert d k v).map Prod.fst = insertNew (d.map Prod.fst) k := by
  unfold dictInsert insertNew
  have hany : (d.any (fun p => p.1 = k)) = true ↔ k ∈ d.map Prod.fst := by
    rw [List.any_eq_true]
    constructor
    · rintro ⟨x, hx, hxk⟩
      rw [List.mem_map]
      exact ⟨x, hx, by simpa using hxk⟩
    · intro hmem
      rw [List.mem_map] at hmem
      obtain ⟨x, hx, hxk⟩ := hmem
      exact ⟨x, hx, by simpa using hxk⟩
  by_cases hm : k ∈ d.map Prod.fst
  · rw [if_pos (hany.mpr hm), if_pos hm, List.map_map]
    apply List.map_congr_left
    intro p hp
    by_cases hpk : p.1 = k
    · simp [Function.comp, hpk]
    · simp [Function.comp, hpk]
  · rw [if_neg (fun hh => hm (hany.mp hh)), if_neg hm]
    simp

/-- `dictInsert` never empties the dict. -/
theorem dictInsert_ne_nil (d : List (String × String)) (k v : String) :
    dictInsert d k v ≠ [] := by
  unfold dictInsert
  split
  · rename_i h1
    rw [List.any_eq_true] at h1
    obtain ⟨x, hx, _⟩ := h1
    simp only [ne_eq, List.map_eq_nil_iff]
    exact List.ne_nil_of_mem hx
  · simp

/-- The keys accumulated by the `create_gist` entry loop are the
first-occurrence folds of the entry names over the initial keys. -/
theorem gistFilesLoop_keys (entries : List String) : ∀ acc d,
    gistFilesLoop entries acc = .ok d →
    d.map Prod.fst = (entries.map entryName).foldl insertNew (acc.map Prod.fst) := by
  induction entries with
  | nil =>
    intro acc d h
    simp [gistFilesLoop] at h
    subst h
    simp
  | cons e rest ih =>
    intro acc d h
    simp only [gistFilesLoop] at h
    by_cases hc : pyContainsChar '=' (pyStrip e) <;> simp [hc] at h
    by_cases hf : pyStrip (pySplitOnce '=' (pyStrip e)).1 = "" <;> simp [hf] at h
    rw [List.map_cons, List.foldl_cons, ih _ _ h, dictInsert_keys]
    simp [entryName]

/-- A successful `create_gist` entry loop cannot return an empty dict
unless it both started empty and consumed no entries. -/
theorem gistFilesLoop_ne_nil (entries : List String) : ∀ acc d,
    gistFilesLoop entries acc = .ok d → (acc ≠ [] ∨ entries ≠ []) → d ≠ [] := by
  induction entries with
  | nil =>
    intro acc d h hne
    simp [gistFilesLoop] at h
    subst h
    rcases hne with h' | h'
    · exact h'
    · simp at h'
  | cons e rest ih =>
    intro acc d h hne
    simp only [gistFilesLoop] at h
    by_cases hc : pyContainsChar '=' (pyStrip e) <;> simp [hc] at h
    by_cases hf : pyStrip (pySplitOnce '=' (pyStrip e)).1 = "" <;> simp [hf] at h
    exact ih _ _ h (Or.inl (dictInsert_ne_nil _ _ _))

/-- A successful parse of the `files` argument yields a non-empty dict. -/
theorem parse_gist_files_ne_nil (files : String) (d : List (String × String))
    (h : parse_gist_files files = .ok d) : d ≠ [] := by
  unfold parse_gist_files at h
  refine gistFilesLoop_ne_nil _ _ _ h (Or.inr ?_)
  unfold pySplitTripleBar
  exact splitTripleBarAux_ne _ _

/-- Claim C6 counterexample: for `files = "a=1|||a=2"` the parsed dict has
the single key `a` (the duplicate collapsed), so the `**Files:**` line
renders `"a"`, while the filenames supplied in the input are `a, a` — the
line does not list exactly the supplied filenames in order. -/
theorem claim_C6_counterexample :
    (parse_gist_files "a=1|||a=2").map (fun d => d.map Prod.fst) = .ok ["a"]
    ∧ suppliedFilenames "a=1|||a=2" = ["a", "a"]
    ∧ String.intercalate ", " ["a"] ≠ String.intercalate ", " ["a", "a"] :=
  ⟨rfl, rfl, by decide⟩

/-- Claim C6 (amended): the `**Files:**` line of the `create_gist` success
output lists the whitespace-trimmed filenames in order of first occurrence;
a later entry whose trimmed filename repeats an earlier one overwrites that
file's content in place and is not listed again. -/
theorem claim_C6_amended (files : String) (d : List (String × String))
    (h : parse_gist_files files = .ok d) :
    d.map Prod.fst = dedupFirst (suppliedFilenames files)
    ∧ ∀ (valves : GHValves) (description : String) (public emit : Bool) (gist : GHGist),
        valves.github_token ≠ "" →
        (create_gist valves description files public emit (.ok gist)).1
          = String.join
              ["# Gist Created Successfully!\n\n",
               "**ID:** `" ++ gist.id ++ "`\n",
               "**Description:** " ++ description ++ "\n",
               "**Visibility:** " ++ (if public then "Public" else "Secret") ++ "\n",
               "**Files:** " ++ String.intercalate ", " (dedupFirst (suppliedFilenames files)) ++ "\n",
               "\n**URL:** " ++ (gist.html_url.getD "") ++ "\n"] := by
  have hkeys : d.map Prod.fst = dedupFirst (suppliedFilenames files) := by
    have hk := gistFilesLoop_keys (pySplitTripleBar files) [] d h
    simpa [dedupFirst, suppliedFilenames, parse_gist_files] using hk
  refine ⟨hkeys, ?_⟩
  intro valves description public emit gist htok
  have hne := parse_gist_files_ne_nil files d h
  simp [create_gist, htok, h, hne, hkeys]

/-- Witness for C6 (amended) on a concrete input with a duplicate
filename. -/
theorem claim_C6_witness :
    parse_gist_files "b.txt=hello|||a.txt=x|||b.txt=world"
      = .ok [("b.txt", "world"), ("a.txt", "x")]
    ∧ ([("b.txt", "world"), ("a.txt", "x")] : List (String × String)).map Prod.fst
        = dedupFirst (suppliedFilenames "b.txt=hello|||a.txt=x|||b.txt=world") := by
  have h : parse_gist_files "b.txt=hello|||a.txt=x|||b.txt=world"
      = .ok [("b.txt", "world"), ("a.txt", "x")] := rfl
  exact ⟨h, (claim_C6_amended _ _ h).1⟩

/-- Claim C4: with both extraction libraries available, the `auto` strategy
selection is "first non-empty content wins" in the fixed order trafilatura,
readability, basic, and the selected pair (content together with its own
metadata) is returned whole — metadata of a strategy whose content was
empty or `None` is never combined with content from a later strategy. -/
theorem claim_C4 (traf readab : Option String × WCMeta) (basic : String × WCMeta) :
    autoSelect true true traf readab basic
      = (if contentFalsy traf.1 then
           (if contentFalsy readab.1 then (some basic.1, basic.2) else readab)
         else traf)
    ∧ (autoSelect true true traf readab basic = traf
       ∨ autoSelect true true traf readab basic = readab
       ∨ autoSelect true true traf readab basic = (some basic.1, basic.2)) := by
  have key : autoSelect true true traf readab basic
      = (if contentFalsy traf.1 then
           (if contentFalsy readab.1 then (some basic.1, basic.2) else readab)
         else traf) := by
    unfold autoSelect
    by_cases h1 : contentFalsy traf.1 <;> by_cases h2 : contentFalsy readab.1 <;>
      simp [h1, h2]
  refine ⟨key, ?_⟩
  rw [key]
  split_ifs <;> simp

/-- `natDigitChar` never yields the letter `E`. -/
theorem natDigitChar_ne_E (m : Nat) : natDigitChar m ≠ 'E' := by
  unfold natDigitChar
  split <;> decide

/-- `natReprCore` of 0 is empty. -/
theorem natReprCore_zero (fuel : Nat) : natReprCore fuel 0 = [] := by
  cases fuel <;> simp [natReprCore]

/-- With enough fuel, the digit list of a positive number is non-empty and
starts with a digit character (in particular not `E`). -/
theorem natReprCore_head (fuel : Nat) : ∀ n, n ≠ 0 → n ≤ fuel →
    ∃ c l, natReprCore fuel n = c :: l ∧ c ≠ 'E' := by
  induction fuel with
  | zero => intro n hn hf; omega
  | succ fuel ih =>
    intro n hn hf
    simp only [natReprCore, if_neg hn]
    by_cases h10 : n / 10 = 0
    · rw [h10, natReprCore_zero]
      exact ⟨natDigitChar (n % 10), [], by simp, natDigitChar_ne_E _⟩
    · have hlt : n / 10 ≤ fuel := by
        have := Nat.div_lt_self (Nat.pos_of_ne_zero hn) (by norm_num : 1 < 10)
        omega
      obtain ⟨c, l, hcl, hc⟩ := ih (n / 10) h10 hlt
      exact ⟨c, l ++ [natDigitChar (n % 10)], by rw [hcl]; simp, hc⟩

/-- A string of the error shape starts with the letter `E`. -/
theorem errorShaped_head (r : String) (h : errorShaped r) : r.data.head? = some 'E' := by
  obtain ⟨t, ht⟩ := h
  subst ht
  rw [String.data_append]
  rfl

/-- A string starting with an `"Error…"` literal has the error shape. -/
theorem errorShaped_of_prefix (p q m : String) (hp : p = "Error" ++ q) :
    errorShaped (p ++ m) :=
  ⟨q ++ m, by rw [hp, String.append_assoc]⟩

/-- `json.dumps` output never has the error shape: its first character is
determined by the top-level JSON constructor and is never `E`. -/
theorem dumps_not_errorShaped (j : Json) : ¬ errorShaped (dumps j) := by
  intro h
  have hh := errorShaped_head _ h
  cases j with
  | null => exact absurd hh (by decide)
  | bool b => cases b <;> exact absurd hh (by decide)
  | str s =>
    rw [show (dumps (.str s)).data.head? = some '"' from by
      simp only [dumps, jsonQuote]
      rw [String.data_append, String.data_append]
      rfl] at hh
    exact absurd hh (by decide)
  | arr xs =>
    rw [show (dumps (.arr xs)).data.head? = some '[' from by
      simp only [dumps]
      rw [String.data_append, String.data_append]
      rfl] at hh
    exact absurd hh (by decide)
  | obj fs =>
    rw [show (dumps (.obj fs)).data.head? = some '\x7b' from by
      simp only [dumps]
      rw [String.data_append, String.data_append]
      rfl] at hh
    exact absurd hh (by decide)
  | num n =>
    cases n with
    | ofNat m =>
      by_cases hm : m = 0
      · subst hm
        exact absurd hh (by decide)
      · obtain ⟨c, l, hcl, hc⟩ := natReprCore_head m m hm le_rfl
        rw [show dumps (Json.num (Int.ofNat m)) = (⟨natReprCore m m⟩ : String) from by
          simp [dumps, intRepr, hm]] at hh
        rw [show ((⟨natReprCore m m⟩ : String)).data = natReprCore m m from rfl, hcl] at hh
        simp at hh
        exact hc hh
    | negSucc m =>
      rw [show (dumps (.num (.negSucc m))).data.head? = some '-' from by
        simp only [dumps, intRepr]
        rw [String.data_append]
        rfl] at hh
      exact absurd hh (by decide)

/-- Claim C10: every Alpha Vantage operation returns the
`json.dumps(..., ensure_ascii=False)` re-serialisation of the decoded
upstream response on success, and a string beginning with `"Error"` on any
failure; the two shapes are mutually exclusive, so exactly one occurs for
every input. -/
theorem claim_C10 (valves : AVValves) (symbol interval keywords : String) (emit : Bool) :
    (∀ data : Json,
       (get_daily_time_series valves symbol emit (.ok data)).1 = dumps data
       ∧ (get_intraday_series valves symbol interval emit (.ok data)).1 = dumps data
       ∧ (get_global_quote valves symbol emit (.ok data)).1 = dumps data
       ∧ (search_symbol valves keywords emit (.ok data)).1 = dumps data
       ∧ ¬ errorShaped (dumps data))
    ∧ (∀ e : PyError,
       errorShaped ((get_daily_time_series valves symbol emit (.error e)).1)
       ∧ errorShaped ((get_intraday_series valves symbol interval emit (.error e)).1)
       ∧ errorShaped ((get_global_quote valves symbol emit (.error e)).1)
       ∧ errorShaped ((search_symbol valves keywords emit (.error e)).1)) := by
  constructor
  · intro data
    exact ⟨rfl, rfl, rfl, rfl, dumps_not_errorShaped data⟩
  · intro e
    refine ⟨?_, ?_, ?_, ?_⟩
    · exact errorShaped_of_prefix "Error fetching daily time series data: "
        " fetching daily time series data: " e.msg (by decide)
    · exact errorShaped_of_prefix "Error fetching intraday data: "
        " fetching intraday data: " e.msg (by decide)
    · exact errorShaped_of_prefix "Error fetching global quote: "
        " fetching global quote: " e.msg (by decide)
    · exact errorShaped_of_prefix "Error searching symbols: "
        " searching symbols: " e.msg (by decide)

/-- `Except.ok` is ok. -/
theorem ok_isOk {ε α : Type} (a : α) : (Except.ok a : Except ε α).isOk = true := rfl

/-- `Except.error` is not ok. -/
theorem error_isOk {ε α : Type} (e : ε) : (Except.error e : Except ε α).isOk = false := rfl

/-- Inside its `try:` block, `search_documents` converts every upstream
outcome into a returned string: with validated user valves the operation
never raises. -/
theorem search_documents_total (valves : PLValves) (query : String) (user : Supplied PLUserValves)
    (uv : PLUserValves) (emit : Bool) (env : PLEnv)
    (h : plGetUserValves user = .ok uv) :
    ((search_documents valves query user emit env).1).isOk = true := by
  unfold search_documents
  by_cases ht : valves.api_token = ""
  · simp [ht, ok_isOk, error_isOk]
  · rcases henv : env.search with e | results
    · simp [ht, h, henv, ok_isOk, error_isOk]
    · by_cases hr : results.results.isEmpty <;> simp [ht, h, henv, hr, ok_isOk, error_isOk]

/-- As `search_documents_total`, for `get_document_by_id`. -/
theorem get_document_by_id_total (valves : PLValves) (document_id : Int)
    (user : Supplied PLUserValves) (uv : PLUserValves) (emit : Bool) (env : PLEnv)
    (h : plGetUserValves user = .ok uv) :
    ((get_document_by_id valves document_id user emit env).1).isOk = true := by
  unfold get_document_by_id
  by_cases ht : valves.api_token = ""
  · simp [ht, ok_isOk, error_isOk]
  · rcases henv : env.doc document_id with e | doc <;> simp [ht, h, henv, ok_isOk, error_isOk]

/-- `wcFinish` always returns a string. -/
theorem wcFinish_isOk (valves : WCValves) (url : String) (emit : Bool) (evs : List Json)
    (show_metadata : Bool) (cm : Option String × WCMeta) (now : String) :
    ((wcFinish valves url emit evs show_metadata cm now).1).isOk = true := by
  unfold wcFinish
  by_cases hf : contentFalsy cm.1 <;> simp [hf, ok_isOk, error_isOk]

/-- With validated user valves and a well-formed (or absent)
`content-length` header, `fetch_url_content` never raises. -/
theorem fetch_url_content_total (valves : WCValves) (url : String) (user : Supplied WCUserValves)
    (uv : WCUserValves) (emit : Bool) (env : WCEnv)
    (h : wcGetUserValves user = .ok uv) (hcl : wcClOk env url) :
    ((fetch_url_content valves url user emit env).1).isOk = true := by
  unfold fetch_url_content
  rw [h]
  by_cases hv : env.validUrl url
  · rcases hf : env.fetch url with _ | m | ⟨cl, text⟩
    · simp [hv, hf, ok_isOk]
    · simp [hv, hf, ok_isOk]
    · unfold wcClOk at hcl
      rw [hf] at hcl
      rcases cl with _ | s
      · simp only [hv, hf, Bool.not_true, pyTruthy, ok_isOk, if_false]
        split_ifs <;> simp [wcFinish_isOk, ok_isOk]
      · by_cases hs : s = ""
        · subst hs
          simp only [hv, hf, pyTruthy]
          norm_num
          split_ifs <;> simp [wcFinish_isOk, ok_isOk]
        · have hok := hcl hs
          rcases hpi : pyInt s with e | n
          · rw [hpi] at hok
            simp [error_isOk] at hok
          · simp only [hv, hf, pyTruthy, Option.getD_some, hpi]
            by_cases hb : n > valves.max_content_length
            · simp [hs, hb, ok_isOk]
            · simp only [hs, hb, ne_eq, not_false_eq_true, decide_eq_true_eq, if_pos]
              norm_num
              split_ifs <;> simp [wcFinish_isOk, ok_isOk]
  · simp [hv, h, ok_isOk]

/-- The `fetch_multiple_urls` loop never raises when none of its
per-URL fetches raises. -/
theorem fmLoop_total (valves : WCValves) (user : Supplied WCUserValves) (emit : Bool)
    (env : WCEnv) (n : Nat) :
    ∀ (rest : List String) (i : Nat) (results : List String) (evs : List Json),
    (∀ u ∈ rest, ((fetch_url_content valves u user emit env).1).isOk = true) →
    ((fmLoop valves user emit env n rest i results evs).1).isOk = true := by
  intro rest
  induction rest with
  | nil => intro i results evs hall; simp [fmLoop, ok_isOk, error_isOk]
  | cons u rest ih =>
    intro i results evs hall
    simp only [fmLoop]
    rcases hfr : (fetch_url_content valves u user emit env).1 with e | c
    · have := hall u (by simp)
      rw [hfr] at this
      simp [ok_isOk, error_isOk] at this
    · simp only [hfr]
      exact ih _ _ _ (fun v hv => hall v (by simp [hv]))

/-- With validated user valves and well-formed `content-length` headers for
every listed URL, `fetch_multiple_urls` never raises. -/
theorem fetch_multiple_urls_total (valves : WCValves) (urls : String)
    (user : Supplied WCUserValves) (uv : WCUserValves) (emit : Bool) (env : WCEnv)
    (h : wcGetUserValves user = .ok uv) (hcl : ∀ u ∈ wcUrlList urls, wcClOk env u) :
    ((fetch_multiple_urls valves urls user emit env).1).isOk = true := by
  unfold fetch_multiple_urls
  by_cases he : (wcUrlList urls).isEmpty
  · simp [he, ok_isOk, error_isOk]
  · have hloop := fmLoop_total valves user emit env (wcUrlList urls).length (wcUrlList urls) 1 []
      (emitIf (emit && valves.enable_status_updates)
        (statusEvent ("Processing " ++ toString (wcUrlList urls).length ++ " URLs...") false) [])
      (fun u hu => fetch_url_content_total valves u user uv emit env h (hcl u hu))
    rcases hr : (fmLoop valves user emit env (wcUrlList urls).length (wcUrlList urls) 1 []
        (emitIf (emit && valves.enable_status_updates)
          (statusEvent ("Processing " ++ toString (wcUrlList urls).length ++ " URLs...") false) [])).1
      with e | results
    · rw [hr] at hloop
      simp [ok_isOk, error_isOk] at hloop
    · simp [he, hr, ok_isOk, error_isOk]

/-- Claim C1 counterexample: `paperless.search_documents` with a configured
token and `__user__["valves"] = 0` raises a `TypeError` from
`dict(user_valves)` before its `try:` block — the exception propagates to
the caller instead of a string being returned. -/
theorem claim_C1_counterexample :
    (search_documents plCfgTok "q" (.raw (.vInt 0)) false plEnvDummy).1
      = .error (.typeError "\x27int\x27 object is not iterable") := rfl

/-- Claim C1 (amended): the Alpha Vantage and GitHub operations are total
by construction (their validation cannot raise and every operation body is
wrapped in `try/except`).  The Paperless and web-extractor operations are
total for every upstream outcome provided the caller-supplied
`__user__["valves"]` validates (their `UserValves(**dict(...))` coercion
runs outside the `try:`), and — for the web extractor — the upstream
`content-length` header, when present and non-empty, parses as an integer
(`int(content_length)` is evaluated outside any matching `except`). -/
theorem claim_C1_amended (plv : PLValves) (wcv : WCValves) (query urls url : String)
    (document_id : Int) (pu : Supplied PLUserValves) (wu : Supplied WCUserValves)
    (puv : PLUserValves) (wuv : WCUserValves) (emit : Bool)
    (hp : plGetUserValves pu = .ok puv) (hw : wcGetUserValves wu = .ok wuv) :
    (∀ env : PLEnv, ((search_documents plv query pu emit env).1).isOk = true)
    ∧ (∀ env : PLEnv, ((get_document_by_id plv document_id pu emit env).1).isOk = true)
    ∧ (∀ env : WCEnv, wcClOk env url → ((fetch_url_content wcv url wu emit env).1).isOk = true)
    ∧ (∀ env : WCEnv, (∀ u ∈ wcUrlList urls, wcClOk env u) →
        ((fetch_multiple_urls wcv urls wu emit env).1).isOk = true) :=
  ⟨fun env => search_documents_total plv query pu puv emit env hp,
   fun env => get_document_by_id_total plv document_id pu puv emit env hp,
   fun env hcl => fetch_url_content_total wcv url wu wuv emit env hw hcl,
   fun env hcl => fetch_multiple_urls_total wcv urls wu wuv emit env hw hcl⟩

/-- Witness for C1 (amended) at concrete configurations and environments. -/
theorem claim_C1_amended_witness :
    plGetUserValves (Supplied.missing) = .ok {}
    ∧ wcGetUserValves (Supplied.missing) = .ok {}
    ∧ ((search_documents plCfgTok "q" .missing false plEnvDummy).1).isOk = true
    ∧ ((fetch_multiple_urls {} "http://a, http://b" .missing false wcEnvDummy).1).isOk = true := by
  have h := claim_C1_amended plCfgTok {} "q" "http://a, http://b" "http://a" 1
    .missing .missing {} {} false rfl rfl
  refine ⟨rfl, rfl, h.1 plEnvDummy, h.2.2.2 wcEnvDummy ?_⟩
  intro u hu
  simp [wcClOk, wcEnvDummy]

/-- Claim C3 counterexample: `fetch_url_content` with
`__user__["valves"] = 0` does not fall back to the default `UserValves`; it
raises a `TypeError` and returns no string. -/
theorem claim_C3_counterexample :
    (fetch_url_content {} "https://example.com" (.raw (.vInt 0)) false wcEnvDummy).1
      = .error (.typeError "\x27int\x27 object is not iterable") := rfl

/-- Claim C3 (amended): only the GitHub tool validates a wrong-shaped
`__user__["valves"]` by falling back to the default `UserValves` (leaving
the operation to complete exactly as with no valves supplied).  The
Paperless and web-extractor tools instead coerce the supplied value through
`UserValves(**dict(value))`: dict-shaped values go through the pydantic
constructor, and every non-dict value raises a `TypeError`. -/
theorem claim_C3_amended :
    (∀ v : PyVal, ghGetUserValves (.raw v) = ghDefaultUserValves)
    ∧ (∀ (valves : GHValves) (repo file_path : String) (branch : Option String)
         (v : PyVal) (emit : Bool) (env : GHEnv),
         read_file valves repo file_path branch (.raw v) emit env
           = read_file valves repo file_path branch .missing emit env)
    ∧ (∀ fields, plGetUserValves (.raw (.vDict fields)) = plUserValvesOfDict fields)
    ∧ (∀ fields, wcGetUserValves (.raw (.vDict fields)) = wcUserValvesOfDict fields)
    ∧ (∀ v : PyVal, isVDict v = false →
         (∃ m, plGetUserValves (.raw v) = .error (.typeError m))
         ∧ (∃ m, wcGetUserValves (.raw v) = .error (.typeError m))) := by
  refine ⟨fun v => rfl, ?_, fun fields => rfl, fun fields => rfl, ?_⟩
  · intro valves repo fp br v emit env
    rfl
  · intro v hv
    cases v with
    | vDict fields => simp [isVDict] at hv
    | vInt n => exact ⟨⟨_, rfl⟩, ⟨_, rfl⟩⟩
    | vStr s => exact ⟨⟨_, rfl⟩, ⟨_, rfl⟩⟩
    | vBool b => exact ⟨⟨_, rfl⟩, ⟨_, rfl⟩⟩

/-- Witness for C3 (amended) at the concrete wrong-shaped value `0`. -/
theorem claim_C3_amended_witness :
    ghGetUserValves (.raw (.vInt 0)) = ghDefaultUserValves
    ∧ isVDict (.vInt 0) = false
    ∧ (∃ m, plGetUserValves (.raw (.vInt 0)) = .error (.typeError m))
    ∧ (∃ m, wcGetUserValves (.raw (.vInt 0)) = .error (.typeError m)) := by
  have h := claim_C3_amended
  exact ⟨h.1 _, by decide, (h.2.2.2.2 _ (by decide)).1, (h.2.2.2.2 _ (by decide)).2⟩

/-- `emitIf` factors as the old trace followed by the new events. -/
theorem emitIf_append (b : Bool) (e : Json) (evs : List Json) :
    emitIf b e evs = evs ++ emitIf b e [] := by
  unfold emitIf
  split <;> simp

/-- Invariant of the `fetch_multiple_urls` loop: starting at position `i`
with `i + |rest| = n + 1`, the results extend the accumulator by the
separator-interleaved per-URL results, and the events extend the trace
accumulator by the specified per-URL trace. -/
theorem fmLoop_spec (valves : WCValves) (user : Supplied WCUserValves) (emit : Bool)
    (env : WCEnv) (n : Nat) :
    ∀ (rest : List String) (i : Nat) (results : List String) (evs : List Json),
    i + rest.length = n + 1 →
    (fmLoop valves user emit env n rest i results evs).1
      = (sepInterleave (fun u => (fetch_url_content valves u user emit env).1) rest).map
          (fun rs => results ++ rs)
    ∧ (fmLoop valves user emit env n rest i results evs).2
      = evs ++ fmTraceSpec valves user emit env n rest i := by
  intro rest
  induction rest with
  | nil =>
    intro i results evs hi
    simp [fmLoop, sepInterleave, fmTraceSpec, Except.map]
  | cons u rest ih =>
    intro i results evs hi
    rcases rest with _ | ⟨v, rest'⟩
    · have hin : ¬ i < n := by simp at hi; omega
      rcases hfr : (fetch_url_content valves u user emit env).1 with e | c
      · constructor
        · simp [fmLoop, sepInterleave, hfr, Except.map]
        · simp only [fmLoop, fmTraceSpec, hfr]
          rw [emitIf_append]
          simp
      · constructor
        · simp [fmLoop, sepInterleave, hfr, hin, Except.map]
        · simp only [fmLoop, fmTraceSpec, hfr, hin, if_false]
          rw [emitIf_append]
          simp [fmLoop, fmTraceSpec]
    · have hin : i < n := by simp at hi; omega
      have hstep : fmLoop valves user emit env n (u :: v :: rest') i results evs
          = (match (fetch_url_content valves u user emit env).1 with
             | .error e =>
               (.error e,
                emitIf (emit && valves.enable_status_updates)
                  (statusEvent ("Processing URL " ++ toString i ++ "/" ++ toString n ++ ": " ++ u) false) evs
                ++ (fetch_url_content valves u user emit env).2)
             | .ok content =>
               fmLoop valves user emit env n (v :: rest') (i + 1)
                 (if i < n then results ++ [content] ++ ["\n\n---\n\n"] else results ++ [content])
                 (emitIf (emit && valves.enable_status_updates)
                   (statusEvent ("Processing URL " ++ toString i ++ "/" ++ toString n ++ ": " ++ u) false) evs
                  ++ (fetch_url_content valves u user emit env).2)) := rfl
      rcases hfr : (fetch_url_content valves u user emit env).1 with e | c
      · rw [hstep, hfr]
        dsimp only
        constructor
        · simp [sepInterleave, hfr, Except.map]
        · simp only [fmTraceSpec, hfr]
          rw [emitIf_append]
          simp
      · obtain ⟨hrec1, hrec2⟩ := ih (i + 1) (results ++ [c] ++ ["\n\n---\n\n"])
          (emitIf (emit && valves.enable_status_updates)
            (statusEvent ("Processing URL " ++ toString i ++ "/" ++ toString n ++ ": " ++ u) false) evs
           ++ (fetch_url_content valves u user emit env).2)
          (by simp at hi ⊢; omega)
        rw [hstep, hfr]
        dsimp only
        rw [if_pos hin]
        constructor
        · rw [hrec1]
          simp only [sepInterleave, hfr]
          rcases sepInterleave (fun u => (fetch_url_content valves u user emit env).1) (v :: rest')
            with e | rs <;> simp [Except.map, List.append_assoc]
        · rw [hrec2]
          simp only [fmTraceSpec, hfr]
          rw [emitIf_append]
          simp

/-- Claim C8: `fetch_multiple_urls` splits its input on commas, discards
entries that are empty after stripping, processes the resulting URLs
strictly sequentially in input order — emitting a per-URL status update
before each fetch (`fmTraceSpec`) — and returns exactly the concatenation
of the `fetch_url_content` results in that order with the separator
`"\n\n---\n\n"` between consecutive results and none after the last
(`sepInterleave`). -/
theorem claim_C8 (valves : WCValves) (urls : String) (user : Supplied WCUserValves)
    (emit : Bool) (env : WCEnv) (h : wcUrlList urls ≠ []) :
    (fetch_multiple_urls valves urls user emit env).1
      = (sepInterleave (fun u => (fetch_url_content valves u user emit env).1)
          (wcUrlList urls)).map String.join
    ∧ (fetch_multiple_urls valves urls user emit env).2
      = emitIf (emit && valves.enable_status_updates)
          (statusEvent ("Processing " ++ toString (wcUrlList urls).length ++ " URLs...") false) []
        ++ fmTraceSpec valves user emit env (wcUrlList urls).length (wcUrlList urls) 1
        ++ (if (sepInterleave (fun u => (fetch_url_content valves u user emit env).1)
                 (wcUrlList urls)).isOk then
              emitIf (emit && valves.enable_status_updates)
                (statusHidden ("Completed processing " ++ toString (wcUrlList urls).length ++ " URLs")) []
            else []) := by
  have hne : ¬ (wcUrlList urls).isEmpty = true := by
    rcases hul : wcUrlList urls with _ | ⟨x, xs⟩
    · exact absurd hul h
    · simp
  obtain ⟨spec1, spec2⟩ := fmLoop_spec valves user emit env (wcUrlList urls).length
    (wcUrlList urls) 1 []
    (emitIf (emit && valves.enable_status_updates)
      (statusEvent ("Processing " ++ toString (wcUrlList urls).length ++ " URLs...") false) [])
    (by omega)
  unfold fetch_multiple_urls
  rw [if_neg hne]
  dsimp only
  rcases hr : (fmLoop valves user emit env (wcUrlList urls).length (wcUrlList urls) 1 []
      (emitIf (emit && valves.enable_status_updates)
        (statusEvent ("Processing " ++ toString (wcUrlList urls).length ++ " URLs...") false) [])).1
    with e2 | results
  · rw [hr] at spec1
    dsimp only
    rcases hsi : sepInterleave (fun u => (fetch_url_content valves u user emit env).1)
        (wcUrlList urls) with e | rs
    · rw [hsi] at spec1
      simp only [Except.map] at spec1
      injection spec1 with he
      subst he
      refine ⟨by simp [Except.map], ?_⟩
      rw [spec2]
      simp [error_isOk]
    · rw [hsi] at spec1
      simp [Except.map] at spec1
  · rw [hr] at spec1
    dsimp only
    rcases hsi : sepInterleave (fun u => (fetch_url_content valves u user emit env).1)
        (wcUrlList urls) with e | rs
    · rw [hsi] at spec1
      simp [Except.map] at spec1
    · rw [hsi] at spec1
      simp only [Except.map, List.nil_append] at spec1
      injection spec1 with he
      subst he
      constructor
      · simp [Except.map]
      · rw [spec2]
        rw [emitIf_append _ _ (emitIf (emit && valves.enable_status_updates)
              (statusEvent ("Processing " ++ toString (wcUrlList urls).length ++ " URLs...") false) []
            ++ fmTraceSpec valves user emit env (wcUrlList urls).length (wcUrlList urls) 1)]
        simp [ok_isOk]

/-- Witness for C8 at a concrete two-URL input. -/
theorem claim_C8_witness :
    wcUrlList "http://a, http://b" ≠ []
    ∧ (fetch_multiple_urls {} "http://a, http://b" .missing false wcEnvDummy).1
        = (sepInterleave (fun u => (fetch_url_content {} u .missing false wcEnvDummy).1)
            (wcUrlList "http://a, http://b")).map String.join :=
  ⟨by decide, (claim_C8 {} "http://a, http://b" .missing false wcEnvDummy (by decide)).1⟩

/-- The string returned by each Alpha Vantage operation does not depend on
the presence of the event emitter. -/
theorem av_result_const (valves : AVValves) (symbol interval keywords : String)
    (e₁ e₂ : Bool) (env : Except PyError Json) :
    (get_daily_time_series valves symbol e₁ env).1 = (get_daily_time_series valves symbol e₂ env).1
    ∧ (get_intraday_series valves symbol interval e₁ env).1
        = (get_intraday_series valves symbol interval e₂ env).1
    ∧ (get_global_quote valves symbol e₁ env).1 = (get_global_quote valves symbol e₂ env).1
    ∧ (search_symbol valves keywords e₁ env).1 = (search_symbol valves keywords e₂ env).1 := by
  rcases env with e | d <;>
    exact ⟨rfl, rfl, rfl, rfl⟩

/-- The string returned by `read_file` does not depend on the emitter or on
`enable_status_updates`. -/
theorem read_file_result_const (valves : GHValves) (repo file_path : String)
    (branch : Option String) (user : Supplied GHUserValves) (e₁ e₂ b₁ b₂ : Bool) (env : GHEnv) :
    (read_file { valves with enable_status_updates := b₁ } repo file_path branch user e₁ env).1
      = (read_file { valves with enable_status_updates := b₂ } repo file_path branch user e₂ env).1 := by
  unfold read_file
  cases _split_repo repo
  case none => rfl
  case some _ =>
    cases env.request
    case error e => rfl
    case ok fd =>
      dsimp only
      split_ifs <;> try rfl
      all_goals
        cases env.b64decode (fd.content.getD "") <;> try rfl
      all_goals
        rename_i bs
      all_goals
        dsimp only
      all_goals
        cases env.utf8decode bs <;> rfl

/-- The string returned by `create_gist` does not depend on the emitter or
on `enable_status_updates`. -/
theorem create_gist_result_const (valves : GHValves) (description files : String)
    (public : Bool) (e₁ e₂ b₁ b₂ : Bool) (env : Except PyError GHGist) :
    (create_gist { valves with enable_status_updates := b₁ } description files public e₁ env).1
      = (create_gist { valves with enable_status_updates := b₂ } description files public e₂ env).1 := by
  unfold create_gist
  dsimp only
  by_cases ht : valves.github_token = ""
  · rw [if_pos ht, if_pos ht]
  · rw [if_neg ht, if_neg ht]
    cases parse_gist_files files with
    | error m => rfl
    | ok d =>
      dsimp only
      by_cases hd : d = []
      · rw [if_pos hd, if_pos hd]
      · rw [if_neg hd, if_neg hd]
        cases env <;> rfl

/-- The output parts accumulated by the `search_documents` loop do not
depend on the emitter or on `enable_status_updates`. -/
theorem plSearchLoop_fst (valves : PLValves) (uv : PLUserValves) (e₁ e₂ b₁ b₂ : Bool)
    (env : PLEnv) :
    ∀ (docs : List PLDoc) (i : Int),
    (plSearchLoop { valves with enable_status_updates := b₁ } uv e₁ env docs i).1
      = (plSearchLoop { valves with enable_status_updates := b₂ } uv e₂ env docs i).1 := by
  intro docs
  induction docs with
  | nil => intro i; rfl
  | cons doc rest ih =>
    intro i
    simp only [plSearchLoop]
    rw [ih (i + 1)]

/-- The string returned by `search_documents` does not depend on the
emitter or on `enable_status_updates`. -/
theorem search_documents_result_const (valves : PLValves) (query : String)
    (user : Supplied PLUserValves) (e₁ e₂ b₁ b₂ : Bool) (env : PLEnv) :
    (search_documents { valves with enable_status_updates := b₁ } query user e₁ env).1
      = (search_documents { valves with enable_status_updates := b₂ } query user e₂ env).1 := by
  unfold search_documents
  dsimp only
  by_cases ht : valves.api_token = ""
  · rw [if_pos ht, if_pos ht]
  · rw [if_neg ht, if_neg ht]
    cases plGetUserValves user with
    | error e => rfl
    | ok uv =>
      dsimp only
      cases env.search with
      | error e => rfl
      | ok results =>
        dsimp only
        by_cases hr : results.results.isEmpty
        · rw [if_pos hr, if_pos hr]
        · rw [if_neg hr, if_neg hr]
          rw [plSearchLoop_fst valves uv e₁ e₂ b₁ b₂ env results.results 1]

/-- The string returned by `get_document_by_id` does not depend on the
emitter or on `enable_status_updates`. -/
theorem get_document_by_id_result_const (valves : PLValves) (document_id : Int)
    (user : Supplied PLUserValves) (e₁ e₂ b₁ b₂ : Bool) (env : PLEnv) :
    (get_document_by_id { valves with enable_status_updates := b₁ } document_id user e₁ env).1
      = (get_document_by_id { valves with enable_status_updates := b₂ } document_id user e₂ env).1 := by
  unfold get_document_by_id
  dsimp only
  by_cases ht : valves.api_token = ""
  · rw [if_pos ht, if_pos ht]
  · rw [if_neg ht, if_neg ht]
    cases plGetUserValves user with
    | error e => rfl
    | ok uv =>
      dsimp only
      cases env.doc document_id <;> rfl

/-- The string returned by `wcFinish` does not depend on the emitter, the
accumulated events, or `enable_status_updates`. -/
theorem wcFinish_fst (valves : WCValves) (url : String) (e₁ e₂ b₁ b₂ : Bool)
    (evs₁ evs₂ : List Json) (show_metadata : Bool) (cm : Option String × WCMeta) (now : String) :
    (wcFinish { valves with enable_status_updates := b₁ } url e₁ evs₁ show_metadata cm now).1
      = (wcFinish { valves with enable_status_updates := b₂ } url e₂ evs₂ show_metadata cm now).1 := by
  unfold wcFinish
  by_cases hf : contentFalsy cm.1 <;> simp [hf]

/-- The string returned by `fetch_url_content` does not depend on the
emitter or on `enable_status_updates`. -/
theorem fetch_url_content_result_const (valves : WCValves) (url : String)
    (user : Supplied WCUserValves) (e₁ e₂ b₁ b₂ : Bool) (env : WCEnv) :
    (fetch_url_content { valves with enable_status_updates := b₁ } url user e₁ env).1
      = (fetch_url_content { valves with enable_status_updates := b₂ } url user e₂ env).1 := by
  unfold fetch_url_content
  cases wcGetUserValves user with
  | error e => rfl
  | ok uv =>
    dsimp only
    by_cases hv : (!env.validUrl url) = true
    · rw [if_pos hv, if_pos hv]
    · rw [if_neg hv, if_neg hv]
      cases env.fetch url with
      | timeout => rfl
      | reqError m => rfl
      | ok cl text =>
        dsimp only
        cases hcc : (if pyTruthy cl then
            match pyInt (cl.getD "") with
            | .error e => Except.error e
            | .ok n => Except.ok (decide (n > valves.max_content_length))
          else Except.ok false) with
        | error e => rfl
        | ok b =>
          cases b with
          | true => rfl
          | false =>
            dsimp only
            split_ifs <;> first
              | rfl
              | exact wcFinish_fst valves url e₁ e₂ b₁ b₂ _ _ uv.show_metadata _ env.now

/-- The results of the `fetch_multiple_urls` loop do not depend on the
emitter, on `enable_status_updates`, or on the accumulated events. -/
theorem fmLoop_fst (valves : WCValves) (user : Supplied WCUserValves) (e₁ e₂ b₁ b₂ : Bool)
    (env : WCEnv) (n : Nat) :
    ∀ (rest : List String) (i : Nat) (results : List String) (evs₁ evs₂ : List Json),
    (fmLoop { valves with enable_status_updates := b₁ } user e₁ env n rest i results evs₁).1
      = (fmLoop { valves with enable_status_updates := b₂ } user e₂ env n rest i results evs₂).1 := by
  intro rest
  induction rest with
  | nil => intro i results evs₁ evs₂; rfl
  | cons u rest ih =>
    intro i results evs₁ evs₂
    simp only [fmLoop]
    have hf := fetch_url_content_result_const valves u user e₁ e₂ b₁ b₂ env
    rcases h1 : (fetch_url_content { valves with enable_status_updates := b₁ } u user e₁ env).1
      with e | c
    · have h2 : (fetch_url_content { valves with enable_status_updates := b₂ } u user e₂ env).1
          = .error e := hf.symm.trans h1
      rw [h2]
    · have h2 : (fetch_url_content { valves with enable_status_updates := b₂ } u user e₂ env).1
          = .ok c := hf.symm.trans h1
      rw [h2]
      dsimp only
      exact ih (i + 1) _ _ _

/-- The string returned by `fetch_multiple_urls` does not depend on the
emitter or on `enable_status_updates`. -/
theorem fetch_multiple_urls_result_const (valves : WCValves) (urls : String)
    (user : Supplied WCUserValves) (e₁ e₂ b₁ b₂ : Bool) (env : WCEnv) :
    (fetch_multiple_urls { valves with enable_status_updates := b₁ } urls user e₁ env).1
      = (fetch_multiple_urls { valves with enable_status_updates := b₂ } urls user e₂ env).1 := by
  unfold fetch_multiple_urls
  dsimp only
  by_cases he : (wcUrlList urls).isEmpty
  · rw [if_pos he, if_pos he]
  · rw [if_neg he, if_neg he]
    have hl := fmLoop_fst valves user e₁ e₂ b₁ b₂ env (wcUrlList urls).length (wcUrlList urls) 1 []
      (emitIf (e₁ && b₁)
        (statusEvent ("Processing " ++ toString (wcUrlList urls).length ++ " URLs...") false) [])
      (emitIf (e₂ && b₂)
        (statusEvent ("Processing " ++ toString (wcUrlList urls).length ++ " URLs...") false) [])
    rcases h1 : (fmLoop { valves with enable_status_updates := b₁ } user e₁ env
        (wcUrlList urls).length (wcUrlList urls) 1 []
        (emitIf (e₁ && b₁)
          (statusEvent ("Processing " ++ toString (wcUrlList urls).length ++ " URLs...") false) [])).1
      with e | results
    · have h2 := hl.symm.trans h1
      rw [h2]
    · have h2 := hl.symm.trans h1
      rw [h2]

/-- Claim C9: the progress/citation callback never affects the result: for
every modelled operation, the returned value is identical whether the
emitter is present or absent and whether `enable_status_updates` is true or
false (the emitted events' return values are discarded by construction of
the embedding, mirroring the source, which never reads them). -/
theorem claim_C9 :
    (∀ (avv : AVValves) (symbol interval keywords : String) (e₁ e₂ : Bool)
       (env : Except PyError Json),
       (get_daily_time_series avv symbol e₁ env).1 = (get_daily_time_series avv symbol e₂ env).1
       ∧ (get_intraday_series avv symbol interval e₁ env).1
           = (get_intraday_series avv symbol interval e₂ env).1
       ∧ (get_global_quote avv symbol e₁ env).1 = (get_global_quote avv symbol e₂ env).1
       ∧ (search_symbol avv keywords e₁ env).1 = (search_symbol avv keywords e₂ env).1)
    ∧ (∀ (ghv : GHValves) (repo file_path : String) (branch : Option String)
         (user : Supplied GHUserValves) (e₁ e₂ b₁ b₂ : Bool) (env : GHEnv),
         (read_file { ghv with enable_status_updates := b₁ } repo file_path branch user e₁ env).1
           = (read_file { ghv with enable_status_updates := b₂ } repo file_path branch user e₂ env).1)
    ∧ (∀ (ghv : GHValves) (description files : String) (public : Bool) (e₁ e₂ b₁ b₂ : Bool)
         (env : Except PyError GHGist),
         (create_gist { ghv with enable_status_updates := b₁ } description files public e₁ env).1
           = (create_gist { ghv with enable_status_updates := b₂ } description files public e₂ env).1)
    ∧ (∀ (plv : PLValves) (query : String) (user : Supplied PLUserValves) (e₁ e₂ b₁ b₂ : Bool)
         (env : PLEnv),
         (search_documents { plv with enable_status_updates := b₁ } query user e₁ env).1
           = (search_documents { plv with enable_status_updates := b₂ } query user e₂ env).1)
    ∧ (∀ (plv : PLValves) (document_id : Int) (user : Supplied PLUserValves) (e₁ e₂ b₁ b₂ : Bool)
         (env : PLEnv),
         (get_document_by_id { plv with enable_status_updates := b₁ } document_id user e₁ env).1
           = (get_document_by_id { plv with enable_status_updates := b₂ } document_id user e₂ env).1)
    ∧ (∀ (wcv : WCValves) (url : String) (user : Supplied WCUserValves) (e₁ e₂ b₁ b₂ : Bool)
         (env : WCEnv),
         (fetch_url_content { wcv with enable_status_updates := b₁ } url user e₁ env).1
           = (fetch_url_content { wcv with enable_status_updates := b₂ } url user e₂ env).1)
    ∧ (∀ (wcv : WCValves) (urls : String) (user : Supplied WCUserValves) (e₁ e₂ b₁ b₂ : Bool)
         (env : WCEnv),
         (fetch_multiple_urls { wcv with enable_status_updates := b₁ } urls user e₁ env).1
           = (fetch_multiple_urls { wcv with enable_status_updates := b₂ } urls user e₂ env).1) :=
  ⟨fun avv symbol interval keywords e₁ e₂ env =>
     av_result_const avv symbol interval keywords e₁ e₂ env,
   fun ghv repo file_path branch user e₁ e₂ b₁ b₂ env =>
     read_file_result_const ghv repo file_path branch user e₁ e₂ b₁ b₂ env,
   fun ghv description files public e₁ e₂ b₁ b₂ env =>
     create_gist_result_const ghv description files public e₁ e₂ b₁ b₂ env,
   fun plv query user e₁ e₂ b₁ b₂ env =>
     search_documents_result_const plv query user e₁ e₂ b₁ b₂ env,
   fun plv document_id user e₁ e₂ b₁ b₂ env =>
     get_document_by_id_result_const plv document_id user e₁ e₂ b₁ b₂ env,
   fun wcv url user e₁ e₂ b₁ b₂ env =>
     fetch_url_content_result_const wcv url user e₁ e₂ b₁ b₂ env,
   fun wcv urls user e₁ e₂ b₁ b₂ env =>
     fetch_multiple_urls_result_const wcv urls user e₁ e₂ b₁ b₂ env⟩

/-- Witness for C10 at a concrete success and a concrete failure. -/
theorem claim_C10_witness :
    (get_daily_time_series {} "AAPL" false (.ok (.obj []))).1 = dumps (.obj [])
    ∧ errorShaped ((get_daily_time_series {} "AAPL" false (.error (.apiError "boom"))).1) :=
  ⟨((claim_C10 {} "AAPL" "5min" "kw" false).1 (.obj [])).1,
   ((claim_C10 {} "AAPL" "5min" "kw" false).2 (.apiError "boom")).1⟩
